import Mathlib

/-!
Verification development for the textogl text-rendering library.

The definitions below are a shallow embedding of `src/font.cpp`,
`src/static_text.cpp` and `src/font_impl.hpp`:

* the UTF-8 decoder `utf8_to_utf32` (font.cpp lines 42-130) as a fold over a
  byte list with explicit decoder state;
* the layout engine `build_text` (font.cpp lines 561-686) over exact rational
  coordinates (the C++ code uses IEEE floats; all arithmetic performed here -
  additions, subtractions, divisions by 64 and by the texture dimensions,
  min/max - is modelled exactly over `ℚ`);
* the GL-state discipline of `render_text_common` (font.cpp lines 427-485),
  `load_text_vbo` (687-697) and the `Static_text` render path
  (static_text.cpp 209-230) as a state machine over an explicit `GLState`;
* the collapsed model-view-projection matrix (font.cpp lines 398-409) and the
  alignment-offset switch (lines 363-396);
* `resize` (font.cpp lines 308-330) with the FreeType size request modelled as
  a boolean outcome.

External collaborators (FreeType rasterization, kerning tables, GL texture-id
allocation) are parameters of the embedding: `char_info`, `kern`,
`mk_page_tex`, `set_pixel_sizes_ok`.  `std::unordered_map` iteration order is
unspecified by C++; it is modelled by an explicit `iter` parameter required
to be a permutation of the insertion-ordered entries.
-/

set_option maxRecDepth 100000

namespace Textogl

/-! ### UTF-8 decoder (font.cpp lines 42-130) -/

/-- The replacement character U+FFFD pushed by the decoder for invalid input. -/
def replacement_char : Nat := 0xFFFD

/-- Decoder state: the pending code point accumulator `code_pt` and the number
of continuation bytes still expected, as in font.cpp lines 46-47. -/
structure Dec_state where
  code_pt : Nat
  expected_bytes : Nat
deriving DecidableEq, Repr

/-- One iteration of the decoder loop body (font.cpp lines 49-121) on a single
input byte (a `Nat` below 256).  Returns the new state and the code points
pushed onto the output during this iteration, in order. -/
def utf8_step (s : Dec_state) (byte : Nat) : Dec_state × List Nat :=
  -- detect invalid bytes
  if byte = 0xC0 ∨ byte = 0xC1 ∨ 0xF5 ≤ byte then
    (⟨s.code_pt, 0⟩, [replacement_char])
  -- 0b0xxxxxxx: single-byte char (ASCII)
  else if byte &&& 0x80 = 0 then
    if s.expected_bytes ≠ 0 then
      -- previous sequence ended prematurely. add replacement char
      (⟨s.code_pt, 0⟩, [replacement_char, byte])
    else
      (⟨s.code_pt, 0⟩, [byte])
  -- 0b11xxxxxx: leading byte
  else if byte &&& 0xC0 = 0xC0 then
    -- if a previous sequence was in progress, emit one replacement first
    let pre : List Nat := if s.expected_bytes ≠ 0 then [replacement_char] else []
    -- 2-byte char
    if byte &&& 0xE0 = 0xC0 then
      (⟨byte &&& 0x1F, 1⟩, pre)
    -- 3-byte char
    else if byte &&& 0xF0 = 0xE0 then
      (⟨byte &&& 0x0F, 2⟩, pre)
    -- 4-byte char
    else if byte &&& 0xF8 = 0xF0 then
      (⟨byte &&& 0x07, 3⟩, pre)
    else
      -- invalid value. insert the replacement char
      (⟨s.code_pt, 0⟩, pre ++ [replacement_char])
  -- 0b10xxxxxx: continuation byte
  else
    if s.expected_bytes = 0 then
      -- continuation byte w/o leader. replace w/ replacement char
      (⟨s.code_pt, 0⟩, [replacement_char])
    else
      let code_pt := s.code_pt <<< 6 ||| (byte &&& 0x3F)
      if s.expected_bytes - 1 = 0 then
        (⟨code_pt, 0⟩, [code_pt])
      else
        (⟨code_pt, s.expected_bytes - 1⟩, [])

/-- Run the decoder loop over a byte list from a given state, accumulating the
output code points. -/
def utf8_run (s : Dec_state) (bytes : List Nat) : Dec_state × List Nat :=
  bytes.foldl (fun acc b =>
    let r := utf8_step acc.1 b
    (r.1, acc.2 ++ r.2)) (s, [])

/-- Convert a UTF-8 byte sequence to a UTF-32 code-point sequence, replacing
invalid sequences by `replacement_char` (font.cpp lines 42-130), including the
trailing replacement when the input ends inside a multi-byte sequence
(lines 123-127). -/
def utf8_to_utf32 (bytes : List Nat) : List Nat :=
  let r := utf8_run ⟨0, 0⟩ bytes
  if 0 < r.1.expected_bytes then r.2 ++ [replacement_char] else r.2

/-- Unicode scalar value: any code point outside the surrogate range and below
0x110000. -/
def Is_scalar (c : Nat) : Prop := c < 0x110000 ∧ ¬(0xD800 ≤ c ∧ c ≤ 0xDFFF)

instance (c : Nat) : Decidable (Is_scalar c) := by
  unfold Is_scalar; infer_instance

/-- Standard (shortest-form) UTF-8 encoding of a scalar value, used to state
the decoder round-trip property of the specification. -/
def encode_utf8 (c : Nat) : List Nat :=
  if c < 0x80 then [c]
  else if c < 0x800 then [0xC0 + c / 0x40, 0x80 + c % 0x40]
  else if c < 0x10000 then
    [0xE0 + c / 0x1000, 0x80 + (c / 0x40) % 0x40, 0x80 + c % 0x40]
  else
    [0xF0 + c / 0x40000, 0x80 + (c / 0x1000) % 0x40,
     0x80 + (c / 0x40) % 0x40, 0x80 + c % 0x40]

/-! ### Geometry (font_impl.hpp lines 142-191) -/

/-- 2D vector (font.hpp `Vec2`). -/
structure Vec2 (α : Type) where
  x : α
  y : α
deriving DecidableEq, Repr

/-- Bounding box with upper-left and lower-right corners
(font_impl.hpp lines 145-162). -/
structure Bbox (α : Type) where
  ul : Vec2 α
  lr : Vec2 α
deriving DecidableEq, Repr

/-- Width of a box: `lr.x - ul.x` (font_impl.hpp line 152). -/
def Bbox.width {α : Type} [Sub α] (b : Bbox α) : α := b.lr.x - b.ul.x

/-- Height of a box: `ul.y - lr.y` (font_impl.hpp line 158). -/
def Bbox.height {α : Type} [Sub α] (b : Bbox α) : α := b.ul.y - b.lr.y

/-- Per-code-point character info (font_impl.hpp lines 175-181); the `origin`
field is only used when rasterizing the atlas texture and is omitted. -/
structure Char_info where
  advance : Vec2 ℚ
  bbox : Bbox ℚ
  glyph_i : Nat
deriving DecidableEq, Repr

/-- Vertex-buffer range for one page (font_impl.hpp lines 165-170). -/
structure Coord_data where
  page_no : Nat
  start : Nat
  num_elements : Nat
deriving DecidableEq, Repr

/-- `std::numeric_limits<float>::max()`, the initial upper-left sentinel of
the layout bounding box (font.cpp lines 571-572), as an exact rational:
(2 - 2^-23) * 2^127. -/
def flt_max : ℚ := (2 ^ 24 - 1) * 2 ^ 104

/-- `std::numeric_limits<float>::min()`, the initial lower-right sentinel of
the layout bounding box (font.cpp lines 573-574): the smallest POSITIVE
normalized float 2^-126, not the most negative float. -/
def flt_min : ℚ := 1 / 2 ^ 126

/-! ### Font instance parameters

The per-instance data `build_text` reads: metrics set by `resize`, and the
outputs of the external FreeType collaborator.  `char_info cp` models
`page_map_[cp >> 8].char_info[cp & 0xFF]` (each page's records are a pure
function of the code point, font.cpp lines 499-524); `kern` models
`FT_Get_Kerning` on glyph indices (in 1/64 pixel units); `mk_page_tex` models
the texture id `load_page` allocates for a page. -/
structure Font_params where
  line_height : ℚ
  cell_bbox : Bbox ℚ
  tex_width : ℚ
  tex_height : ℚ
  has_kerning_info : Bool
  char_info : Nat → Char_info
  kern : Nat → Nat → Vec2 ℚ
  mk_page_tex : Nat → Nat

/-! ### Page map and lazy page construction (font.cpp lines 487-491, 589-597) -/

/-- The page map `page_map_`, keyed by page number; the stored value is the
page's texture id (the per-glyph records are modelled by
`Font_params.char_info`).  An association list in insertion order. -/
abbrev Page_map : Type := List (Nat × Nat)

/-- Look a page up in the page map (`page_map_.find(page_no)`). -/
def page_lookup (pm : Page_map) (page_no : Nat) : Option Nat :=
  match pm with
  | [] => none
  | (k, v) :: rest => if k = page_no then some v else page_lookup rest page_no

/-- The page-request unit of `build_text` (font.cpp lines 591-597): find the
page; if absent, `load_page` builds it (lines 487-558, modelled by
`mk_page_tex`) and inserts it.  Returns the new map, the page's texture, and
whether `load_page` was invoked. -/
def get_or_load_page (P : Font_params) (pm : Page_map) (page_no : Nat) :
    Page_map × Nat × Bool :=
  match page_lookup pm page_no with
  | some tex => (pm, tex, false)
  | none => (pm ++ [(page_no, P.mk_page_tex page_no)], P.mk_page_tex page_no, true)

/-! ### Layout engine (font.cpp lines 561-686) -/

/-- Append items under a key of `screen_and_tex_coords`
(`std::unordered_map<uint32_t, std::vector<Vec2<float>>>`, font.cpp line 567):
`operator[]` inserts an empty vector on first use, so keys appear in
first-encountered order; `push_back` appends to the keyed vector. -/
def groups_append (gs : List (Nat × List (Vec2 ℚ))) (k : Nat)
    (items : List (Vec2 ℚ)) : List (Nat × List (Vec2 ℚ)) :=
  match gs with
  | [] => [(k, items)]
  | (q, v) :: rest =>
    if q = k then (q, v ++ items) :: rest else (q, v) :: groups_append rest k items

/-- Loop state of `build_text`'s main pass (font.cpp lines 564-666), plus a
log `loads` of the pages passed to `load_page`, for stating the at-most-once
construction property. -/
structure Build_state where
  pen : Vec2 ℚ
  prev_glyph_i : Nat
  font_box : Bbox ℚ
  groups : List (Nat × List (Vec2 ℚ))
  page_map : Page_map
  loads : List Nat

/-- The kerning adjustment applied to the pen before emitting a glyph
(font.cpp lines 603-612). -/
def kerned_pen (P : Font_params) (pen : Vec2 ℚ) (prev_glyph_i : Nat)
    (c : Char_info) : Vec2 ℚ :=
  if P.has_kerning_info = true ∧ prev_glyph_i ≠ 0 ∧ c.glyph_i ≠ 0 then
    let kerning := P.kern prev_glyph_i c.glyph_i
    ⟨pen.x + kerning.x / 64, pen.y - kerning.y / 64⟩
  else pen

/-- Texture coordinate of a glyph's origin within its page
(font.cpp lines 614-619). -/
def tex_origin (P : Font_params) (code_pt : Nat) : Vec2 ℚ :=
  let tex_row : Nat := (code_pt >>> 4) &&& 0xF
  let tex_col : Nat := code_pt &&& 0xF
  ⟨(tex_col : ℚ) * P.cell_bbox.width - P.cell_bbox.ul.x,
   (tex_row : ℚ) * P.cell_bbox.height + P.cell_bbox.ul.y⟩

/-- Body of `build_text`'s per-code-point loop (font.cpp lines 578-666). -/
def build_step (P : Font_params) (s : Build_state) (code_pt : Nat) : Build_state :=
  -- handle newlines
  if code_pt = 10 then
    { s with pen := ⟨0, s.pen.y + P.line_height⟩, prev_glyph_i := 0 }
  else
    let page_no := code_pt >>> 8
    -- load page if not already loaded
    let pg := get_or_load_page P s.page_map page_no
    let page_map := pg.1
    let loads := if pg.2.2 then s.loads ++ [page_no] else s.loads
    let c := P.char_info code_pt
    -- add kerning if necessary
    let pen := kerned_pen P s.pen s.prev_glyph_i c
    let t := tex_origin P code_pt
    -- push back vertex coords, and texture coords, interleaved (lines 621-653)
    let glyph_coords : List (Vec2 ℚ) :=
      [⟨pen.x + c.bbox.ul.x, pen.y - c.bbox.lr.y⟩,
       ⟨(t.x + c.bbox.ul.x) / P.tex_width, (t.y - c.bbox.lr.y) / P.tex_height⟩,
       ⟨pen.x + c.bbox.lr.x, pen.y - c.bbox.lr.y⟩,
       ⟨(t.x + c.bbox.lr.x) / P.tex_width, (t.y - c.bbox.lr.y) / P.tex_height⟩,
       ⟨pen.x + c.bbox.ul.x, pen.y - c.bbox.ul.y⟩,
       ⟨(t.x + c.bbox.ul.x) / P.tex_width, (t.y - c.bbox.ul.y) / P.tex_height⟩,
       ⟨pen.x + c.bbox.ul.x, pen.y - c.bbox.ul.y⟩,
       ⟨(t.x + c.bbox.ul.x) / P.tex_width, (t.y - c.bbox.ul.y) / P.tex_height⟩,
       ⟨pen.x + c.bbox.lr.x, pen.y - c.bbox.lr.y⟩,
       ⟨(t.x + c.bbox.lr.x) / P.tex_width, (t.y - c.bbox.lr.y) / P.tex_height⟩,
       ⟨pen.x + c.bbox.lr.x, pen.y - c.bbox.ul.y⟩,
       ⟨(t.x + c.bbox.lr.x) / P.tex_width, (t.y - c.bbox.ul.y) / P.tex_height⟩]
    -- expand bounding box for whole string (lines 655-659)
    let font_box : Bbox ℚ :=
      ⟨⟨min s.font_box.ul.x (pen.x + c.bbox.ul.x),
        min s.font_box.ul.y (pen.y - c.bbox.ul.y)⟩,
       ⟨max s.font_box.lr.x (pen.x + c.bbox.lr.x),
        max s.font_box.lr.y (pen.y - c.bbox.lr.y)⟩⟩
    -- advance to next origin (lines 661-665)
    { pen := ⟨pen.x + c.advance.x / 64, pen.y - c.advance.y / 64⟩
      prev_glyph_i := c.glyph_i
      font_box := font_box
      groups := groups_append s.groups page_no glyph_coords
      page_map := page_map
      loads := loads }

/-- Initial loop state of `build_text` (font.cpp lines 564-576): pen at the
origin, no previous glyph, bounding box at its sentinel corners. -/
def build_init (pm : Page_map) : Build_state :=
  ⟨⟨0, 0⟩, 0, ⟨⟨flt_max, flt_max⟩, ⟨flt_min, flt_min⟩⟩, [], pm, []⟩

/-- Result of `build_text`, together with the final page map and the log of
`load_page` calls (observations of the member state `page_map_`). -/
structure Build_result where
  coords : List (Vec2 ℚ)
  coord_data : List Coord_data
  font_box : Bbox ℚ
  page_map : Page_map
  loads : List Nat

/-- The final regrouping pass of `build_text` (font.cpp lines 668-683):
concatenate the per-page vertex lists in the order the `unordered_map` is
iterated, recording each page's start index and element count (in units of
interleaved vertex+texture coordinate pairs, hence the divisions by 2). -/
def regroup (pages : List (Nat × List (Vec2 ℚ))) :
    List (Vec2 ℚ) × List Coord_data :=
  pages.foldl (fun acc page =>
    let start := acc.1.length / 2
    let coords := acc.1 ++ page.2
    (coords, acc.2 ++ [⟨page.1, start, coords.length / 2 - start⟩])) ([], [])

/-- `build_text` (font.cpp lines 561-686): decode the input, run the layout
loop, then flatten the per-page groups.  `iter` models the unspecified
iteration order of the `std::unordered_map` `screen_and_tex_coords` at line
673; it is constrained to be a permutation in the theorems below. -/
def build_text (P : Font_params) (pm : Page_map)
    (iter : List (Nat × List (Vec2 ℚ)) → List (Nat × List (Vec2 ℚ)))
    (utf8_input : List Nat) : Build_result :=
  let s := (utf8_to_utf32 utf8_input).foldl (build_step P) (build_init pm)
  let rg := regroup (iter s.groups)
  ⟨rg.1, rg.2, s.font_box, s.page_map, s.loads⟩

/-! ### Spec-side descriptions of the layout output -/

/-- Upper-left corner of a glyph's ink box placed at a pen position. -/
def ul_corner (pen : Vec2 ℚ) (c : Char_info) : Vec2 ℚ :=
  ⟨pen.x + c.bbox.ul.x, pen.y - c.bbox.ul.y⟩

/-- Lower-left corner of a glyph's ink box placed at a pen position. -/
def ll_corner (pen : Vec2 ℚ) (c : Char_info) : Vec2 ℚ :=
  ⟨pen.x + c.bbox.ul.x, pen.y - c.bbox.lr.y⟩

/-- Lower-right corner of a glyph's ink box placed at a pen position. -/
def lr_corner (pen : Vec2 ℚ) (c : Char_info) : Vec2 ℚ :=
  ⟨pen.x + c.bbox.lr.x, pen.y - c.bbox.lr.y⟩

/-- Upper-right corner of a glyph's ink box placed at a pen position. -/
def ur_corner (pen : Vec2 ℚ) (c : Char_info) : Vec2 ℚ :=
  ⟨pen.x + c.bbox.lr.x, pen.y - c.bbox.ul.y⟩

/-- Normalized texture coordinate of the upper-left ink corner within the
glyph's page. -/
def tex_ul (P : Font_params) (code_pt : Nat) (c : Char_info) : Vec2 ℚ :=
  ⟨((tex_origin P code_pt).x + c.bbox.ul.x) / P.tex_width,
   ((tex_origin P code_pt).y - c.bbox.ul.y) / P.tex_height⟩

/-- Normalized texture coordinate of the lower-left ink corner. -/
def tex_ll (P : Font_params) (code_pt : Nat) (c : Char_info) : Vec2 ℚ :=
  ⟨((tex_origin P code_pt).x + c.bbox.ul.x) / P.tex_width,
   ((tex_origin P code_pt).y - c.bbox.lr.y) / P.tex_height⟩

/-- Normalized texture coordinate of the lower-right ink corner. -/
def tex_lr (P : Font_params) (code_pt : Nat) (c : Char_info) : Vec2 ℚ :=
  ⟨((tex_origin P code_pt).x + c.bbox.lr.x) / P.tex_width,
   ((tex_origin P code_pt).y - c.bbox.lr.y) / P.tex_height⟩

/-- Normalized texture coordinate of the upper-right ink corner. -/
def tex_ur (P : Font_params) (code_pt : Nat) (c : Char_info) : Vec2 ℚ :=
  ⟨((tex_origin P code_pt).x + c.bbox.lr.x) / P.tex_width,
   ((tex_origin P code_pt).y - c.bbox.ul.y) / P.tex_height⟩

/-- The placed ink boxes of the glyphs of a code-point sequence: each glyph's
ink bounding box offset by the pen position at which it is emitted, following
the same pen recurrence as the layout loop; newlines produce no box. -/
def placed_boxes (P : Font_params) (pen : Vec2 ℚ) (prev_glyph_i : Nat) :
    List Nat → List (Bbox ℚ)
  | [] => []
  | code_pt :: rest =>
    if code_pt = 10 then
      placed_boxes P ⟨0, pen.y + P.line_height⟩ 0 rest
    else
      let c := P.char_info code_pt
      let p := kerned_pen P pen prev_glyph_i c
      ⟨⟨p.x + c.bbox.ul.x, p.y - c.bbox.ul.y⟩, ⟨p.x + c.bbox.lr.x, p.y - c.bbox.lr.y⟩⟩ ::
        placed_boxes P ⟨p.x + c.advance.x / 64, p.y - c.advance.y / 64⟩ c.glyph_i rest

/-- Append an element at the end unless it is already present. -/
def insert_new (acc : List Nat) (x : Nat) : List Nat :=
  if x ∈ acc then acc else acc ++ [x]

/-- First occurrences of a list's elements, in order of first appearance. -/
def first_occurrences (l : List Nat) : List Nat :=
  l.foldl insert_new []

/-- The used pages of a code-point sequence in first-encountered order: the
page numbers of the non-newline code points, first occurrences only. -/
def first_encountered_pages (cps : List Nat) : List Nat :=
  first_occurrences ((cps.filter (fun c => decide (c ≠ 10))).map (fun c => c >>> 8))

/-! ### Render transform (font.cpp lines 358-412) -/

/-- The alignment offset resolved from the alignment flags and the text
bounding box (font.cpp lines 363-396; flag values from font.hpp lines
100-111: horizontal field `flags & 0x3` with baseline=0/left=1/right=2/
center=3, vertical field `flags & 0xC` with baseline=0/top=4/bottom=8/
center=0xC). -/
def start_offset {α : Type} [Field α] (align_flags : Nat) (text_box : Bbox α) :
    Vec2 α :=
  let hx :=
    if align_flags &&& 0x3 = 0 then 0
    else if align_flags &&& 0x3 = 1 then text_box.ul.x
    else if align_flags &&& 0x3 = 2 then text_box.lr.x
    else text_box.ul.x + text_box.width / 2
  let hy :=
    if align_flags &&& 0xC = 0 then 0
    else if align_flags &&& 0xC = 4 then text_box.ul.y
    else if align_flags &&& 0xC = 8 then text_box.lr.y
    else text_box.lr.y + text_box.height / 2
  ⟨hx, hy⟩

/-- 4x4 matrix acting on column vectors, the convention of
`glUniformMatrix4fv(..., GL_FALSE, ...)` at font.cpp line 451 (the C++
initializer lists the matrix column by column). -/
abbrev Mat4 (α : Type) := Matrix (Fin 4) (Fin 4) α

/-- Modelled from the spec: `orthographic_projection(0,width,height,0)` - the
repository snapshot does not include the `Mat4` helper header, so the
four-argument 2D orthographic projection named by the spec is defined here:
it maps x linearly from [left,right] to [-1,1], y from [bottom,top] to
[-1,1], and leaves z untouched. -/
def orthographic_projection {α : Type} [Field α] (left right bottom top : α) :
    Mat4 α :=
  !![2 / (right - left), 0, 0, -(right + left) / (right - left);
     0, 2 / (top - bottom), 0, -(top + bottom) / (top - bottom);
     0, 0, 1, 0;
     0, 0, 0, 1]

/-- Modelled from the spec: `translate(v)` - translation by a 2D vector in
the z=0 plane. -/
def translate {α : Type} [Field α] (v : Vec2 α) : Mat4 α :=
  !![1, 0, 0, v.x;
     0, 1, 0, v.y;
     0, 0, 1, 0;
     0, 0, 0, 1]

/-- Modelled from the spec: `rotate(rotation, z-axis)` - rotation about the
z axis, parametrized by the cosine `c` and sine `s` of the angle (matching
the `std::cos(rotation)` / `std::sin(rotation)` calls of the source;
the matrix identity proved below is polynomial in `c` and `s` and therefore
holds for every angle). -/
def rotate_z {α : Type} [Field α] (c s : α) : Mat4 α :=
  !![c, -s, 0, 0;
     s, c, 0, 0;
     0, 0, 1, 0;
     0, 0, 0, 1]

/-- The collapsed model-view-projection matrix the screen-space render path
hands to the shader, transcribed column-major from the initializer at
font.cpp lines 400-409, with `c`/`s` for the cosine and sine of the rotation
and `off` for `start_offset`. -/
def model_view_projection {α : Type} [Field α] (win pos : Vec2 α) (c s : α)
    (off : Vec2 α) : Mat4 α :=
  !![2 * c / win.x, -2 * s / win.x, 0, -1 + 2 * (pos.x - c * off.x + s * off.y) / win.x;
     -2 * s / win.y, -2 * c / win.y, 0, 1 - 2 * (pos.y - s * off.x - c * off.y) / win.y;
     0, 0, 1, 0;
     0, 0, 0, 1]

/-! ### GL state machine (font.cpp lines 427-485, 688-697;
static_text.cpp lines 209-230) -/

/-- GL_SRC_ALPHA. -/
def GL_SRC_ALPHA : Nat := 0x0302
/-- GL_ONE_MINUS_SRC_ALPHA. -/
def GL_ONE_MINUS_SRC_ALPHA : Nat := 0x0303
/-- GL_TEXTURE0. -/
def GL_TEXTURE0 : Nat := 0x84C0

/-- The ambient GL state touched by the render path.  `texture_2d` is the
GL_TEXTURE_BINDING_2D selector state, per texture unit (indexed by the
GL_TEXTUREi enum value).  Uniform values and buffer stores are opaque
payloads of types `M`, `C`, `V`. -/
structure GLState (M C V : Type) where
  vertex_array : Nat
  array_buffer : Nat
  program : Nat
  blend_src : Nat
  blend_dst : Nat
  depth_test : Bool
  blend : Bool
  active_texture : Nat
  texture_2d : Nat → Nat
  uniform_mvp : Option M
  uniform_color : Option C
  buffer_store : Nat → Option V

/-- `render_text_common` (matrix overload, font.cpp lines 427-485) as a state
transformer.  Returns the final state and the log of draw calls, each
`(bound texture, start, num_elements)` from the per-page loop at lines
460-465.  `page_tex` models `page_map_[cd.page_no].tex`. -/
def render_text_common {M C V : Type} (prog max_tu_count : Nat)
    (page_tex : Nat → Nat) (mvp : M) (color : C)
    (coord_data : List Coord_data) (vao vbo : Nat) (s : GLState M C V) :
    GLState M C V × List (Nat × Nat × Nat) :=
  -- save old settings (lines 431-444)
  let old_vao := s.vertex_array
  let old_vbo := s.array_buffer
  let old_prog := s.program
  let old_blend_src := s.blend_src
  let old_blend_dst := s.blend_dst
  let old_active_texture := s.active_texture
  let old_texture_2d := s.texture_2d s.active_texture
  let old_depth_test := s.depth_test
  let old_blend := s.blend
  -- bind and set up shader uniforms, blending, texture unit (lines 446-457)
  let s1 : GLState M C V :=
    { s with vertex_array := vao, array_buffer := vbo, program := prog,
             uniform_mvp := some mvp, uniform_color := some color,
             depth_test := false, blend := true,
             blend_src := GL_SRC_ALPHA, blend_dst := GL_ONE_MINUS_SRC_ALPHA,
             active_texture := GL_TEXTURE0 + max_tu_count }
  -- draw text, per page (lines 460-465)
  let r := coord_data.foldl (fun (acc : GLState M C V × List (Nat × Nat × Nat)) cd =>
    let t := acc.1
    let t1 := { t with
      texture_2d := Function.update t.texture_2d t.active_texture (page_tex cd.page_no) }
    (t1, acc.2 ++ [(page_tex cd.page_no, cd.start, cd.num_elements)])) (s1, [])
  -- restore old settings (lines 468-484)
  let s2 :=
    { r.1 with vertex_array := old_vao, array_buffer := old_vbo,
               program := old_prog, depth_test := old_depth_test,
               blend := old_blend, blend_src := old_blend_src,
               blend_dst := old_blend_dst, active_texture := old_active_texture }
  let s3 := { s2 with
    texture_2d := Function.update s2.texture_2d old_active_texture old_texture_2d }
  (s3, r.2)

/-- `load_text_vbo` (font.cpp lines 688-697): binds the font's VBO to
GL_ARRAY_BUFFER and uploads the vertex data; the binding is NOT restored. -/
def load_text_vbo {M C V : Type} (vbo : Nat) (coords : V) (s : GLState M C V) :
    GLState M C V :=
  { s with array_buffer := vbo,
           buffer_store := Function.update s.buffer_store vbo (some coords) }

/-- GL side effects of one `load_page` call (font.cpp lines 541-556): the
freshly generated texture id (`glGenTextures`, modelled by the `tex`
argument) is bound for upload by `glActiveTexture(GL_TEXTURE0)` followed by
`glBindTexture(GL_TEXTURE_2D, page.tex)` on the now-active unit 0;
`glTexImage2D`, `glGenerateMipmap` and `glTexParameteri` mutate the bound
texture object, not any binding or unit selector.  Neither the unit selector
nor the binding is restored by `load_page`. -/
def load_page_gl {M C V : Type} (tex : Nat) (s : GLState M C V) :
    GLState M C V :=
  let s1 := { s with active_texture := GL_TEXTURE0 }
  { s1 with texture_2d := Function.update s1.texture_2d s1.active_texture tex }

/-- The GL side effects of a `build_text` call: one `load_page_gl` per page
the layout pass builds (font.cpp line 596), in load order - these run BEFORE
the transient render paths reach `render_text_common`'s state capture. -/
def build_text_gl {M C V : Type} (P : Font_params) (loads : List Nat)
    (s : GLState M C V) : GLState M C V :=
  loads.foldl (fun t p => load_page_gl (P.mk_page_tex p) t) s

/-- The GL effect of the screen-space transient render path
`Font_sys::Impl::render_text` (font.cpp lines 343-356): `build_text` (whose
lazy page builds touch GL state), then `load_text_vbo` on the freshly built
vertex data, then `render_text_common`.  The buffer payload type is the
actual vertex list; the pure matrix computation is modelled by
`model_view_projection` and its result stands behind the opaque `mvp`. -/
def font_sys_render_text {M C : Type} (P : Font_params) (pm : Page_map)
    (iter : List (Nat × List (Vec2 ℚ)) → List (Nat × List (Vec2 ℚ)))
    (utf8 : List Nat) (prog max_tu_count : Nat) (page_tex : Nat → Nat)
    (mvp : M) (color : C) (vao vbo : Nat)
    (s : GLState M C (List (Vec2 ℚ))) :
    GLState M C (List (Vec2 ℚ)) × List (Nat × Nat × Nat) :=
  let b := build_text P pm iter utf8
  render_text_common prog max_tu_count page_tex mvp color b.coord_data vao vbo
    (load_text_vbo vbo b.coords (build_text_gl P b.loads s))

/-- The GL effect of the matrix-mode transient render path
`Font_sys::Impl::render_text` (font.cpp lines 418-425): `build_text` (with
its lazy page builds), then `render_text_common` directly - this overload
never calls `load_text_vbo`. -/
def font_sys_render_text_mat {M C V : Type} (P : Font_params) (pm : Page_map)
    (iter : List (Nat × List (Vec2 ℚ)) → List (Nat × List (Vec2 ℚ)))
    (utf8 : List Nat) (prog max_tu_count : Nat) (page_tex : Nat → Nat)
    (mvp : M) (color : C) (vao vbo : Nat) (s : GLState M C V) :
    GLState M C V × List (Nat × Nat × Nat) :=
  let b := build_text P pm iter utf8
  render_text_common prog max_tu_count page_tex mvp color b.coord_data vao vbo
    (build_text_gl P b.loads s)

/-- The GL effect of the cached render path `Static_text::Impl::render_text`
(static_text.cpp lines 209-230): `render_text_common` on the stored
coordinate data and the Static_text's own VAO/VBO, with no VBO upload. -/
def static_text_render_text {M C V : Type} (prog max_tu_count : Nat)
    (page_tex : Nat → Nat) (mvp : M) (color : C)
    (coord_data : List Coord_data) (vao vbo : Nat) (s : GLState M C V) :
    GLState M C V × List (Nat × Nat × Nat) :=
  render_text_common prog max_tu_count page_tex mvp color coord_data vao vbo s

/-! ### resize (font.cpp lines 308-330) -/

/-- The instance metrics `resize` manages. -/
structure Font_metrics where
  cell_bbox : Bbox ℚ
  line_height : ℚ
  tex_width : ℚ
  tex_height : ℚ
  has_kerning_info : Bool
  page_map : Page_map

/-- The scaled face metrics FreeType reports after a successful
`FT_Set_Pixel_Sizes`: the four `FT_MulFix(face_->bbox.*, scale)/64` values
and the scaled line height (font.cpp lines 316-322). -/
structure Face_metrics where
  x_min : ℚ
  y_max : ℚ
  x_max : ℚ
  y_min : ℚ
  height : ℚ
  has_kerning : Bool

/-- `Font_sys::Impl::resize` (font.cpp lines 308-330).  `set_pixel_sizes_ok`
models the outcome of `FT_Set_Pixel_Sizes`; on failure the function throws
(line 312) and the `error` value carries the metrics as they stand when the
exception leaves the function. -/
def resize (m : Font_metrics) (set_pixel_sizes_ok : Bool) (ft : Face_metrics) :
    Except Font_metrics Font_metrics :=
  if set_pixel_sizes_ok = false then Except.error m
  else
    let cell_bbox : Bbox ℚ :=
      ⟨⟨ft.x_min - 2, ft.y_max + 2⟩, ⟨ft.x_max + 2, ft.y_min - 2⟩⟩
    Except.ok
      { cell_bbox := cell_bbox
        line_height := ft.height
        tex_width := cell_bbox.width * 16
        tex_height := cell_bbox.height * 16
        has_kerning_info := ft.has_kerning
        page_map := [] }

/-! ### Concrete instances for counterexamples -/

/-- A concrete glyph whose ink box lies entirely above the baseline
(upper-left (0,10), lower-right (5,2) in FreeType's y-up glyph coordinates),
like an apostrophe; realistic values of `bitmap_left`/`bitmap_top`/width/rows
per font.cpp lines 518-521. -/
def sample_char : Char_info := ⟨⟨64, 0⟩, ⟨⟨0, 10⟩, ⟨5, 2⟩⟩, 7⟩

/-- Concrete font parameters used for counterexamples. -/
def sample_params : Font_params :=
  { line_height := 12
    cell_bbox := ⟨⟨-1, 11⟩, ⟨9, -3⟩⟩
    tex_width := 160
    tex_height := 224
    has_kerning_info := false
    char_info := fun _ => sample_char
    kern := fun _ _ => ⟨0, 0⟩
    mk_page_tex := fun p => p + 100 }

/-- A concrete initial GL state. -/
def sample_gl_state : GLState Unit Unit (List (Vec2 ℚ)) :=
  { vertex_array := 3
    array_buffer := 5
    program := 11
    blend_src := 1
    blend_dst := 0
    depth_test := true
    blend := false
    active_texture := GL_TEXTURE0
    texture_2d := fun _ => 9
    uniform_mvp := none
    uniform_color := none
    buffer_store := fun _ => none }

/-- Concrete font metrics with a non-empty page map, for the resize claim. -/
def sample_metrics : Font_metrics :=
  { cell_bbox := ⟨⟨-1, 11⟩, ⟨9, -3⟩⟩
    line_height := 12
    tex_width := 160
    tex_height := 224
    has_kerning_info := true
    page_map := [(0, 100)] }

/-- Concrete face metrics for the resize claim. -/
def sample_face_metrics : Face_metrics := ⟨-4, 20, 14, -6, 25, true⟩

/-- The state-guard contract: every binding captured at lines 431-444 of
font.cpp - vertex array, array buffer, program, blend functions, depth-test
and blend enables, active texture unit, and the 2D texture bound on the
entry-time active unit - has the same value in `s2` as in `s`. -/
def captured_restored {M C V : Type} (s s2 : GLState M C V) : Prop :=
  s2.vertex_array = s.vertex_array ∧ s2.array_buffer = s.array_buffer ∧
  s2.program = s.program ∧ s2.blend_src = s.blend_src ∧
  s2.blend_dst = s.blend_dst ∧ s2.depth_test = s.depth_test ∧
  s2.blend = s.blend ∧ s2.active_texture = s.active_texture ∧
  s2.texture_2d s.active_texture = s.texture_2d s.active_texture

end Textogl

namespace Textogl

/-! ### Byte-level facts about the decoder's bit tests -/

/-- For bytes, testing the top bit against 0 is the ASCII range test. -/
theorem byte_and128 : ∀ b : Nat, b < 256 → (b &&& 128 = 0 ↔ b < 128) := by decide

/-- For bytes, `b &&& 0xC0 = 0xC0` selects the leading-byte range. -/
theorem byte_and192 : ∀ b : Nat, b < 256 → (b &&& 192 = 192 ↔ 192 ≤ b) := by decide

/-- For bytes, `b &&& 0xE0 = 0xC0` selects the 2-byte-leader range. -/
theorem byte_and224 : ∀ b : Nat, b < 256 → (b &&& 224 = 192 ↔ 192 ≤ b ∧ b < 224) := by
  decide

/-- For bytes, `b &&& 0xF0 = 0xE0` selects the 3-byte-leader range. -/
theorem byte_and240 : ∀ b : Nat, b < 256 → (b &&& 240 = 224 ↔ 224 ≤ b ∧ b < 240) := by
  decide

/-- For bytes, `b &&& 0xF8 = 0xF0` selects the 4-byte-leader range. -/
theorem byte_and248 : ∀ b : Nat, b < 256 → (b &&& 248 = 240 ↔ 240 ≤ b ∧ b < 248) := by
  decide

/-- Masking a byte by 0x1F is reduction mod 32. -/
theorem byte_and31 : ∀ b : Nat, b < 256 → b &&& 31 = b % 32 := by decide

/-- Masking a byte by 0x0F is reduction mod 16. -/
theorem byte_and15 : ∀ b : Nat, b < 256 → b &&& 15 = b % 16 := by decide

/-- Masking a byte by 0x07 is reduction mod 8. -/
theorem byte_and7 : ∀ b : Nat, b < 256 → b &&& 7 = b % 8 := by decide

/-- Masking a byte by 0x3F is reduction mod 64. -/
theorem byte_and63 : ∀ b : Nat, b < 256 → b &&& 63 = b % 64 := by decide

/-- The accumulator update `code_pt <<< 6 ||| r` with `r < 64` is
`64 * code_pt + r`. -/
theorem shift6_or (a r : Nat) (h : r < 64) : a <<< 6 ||| r = 64 * a + r := by
  rw [Nat.shiftLeft_eq]
  have hor := Nat.mul_add_lt_is_or (b := r) (i := 6) h a
  rw [Nat.mul_comm] at hor
  omega

/-! ### Characterizations of the decoder step on each byte class -/

/-- An ASCII byte with no pending sequence is emitted as-is. -/
theorem utf8_step_ascii (s : Dec_state) (b : Nat) (hb : b < 128)
    (he : s.expected_bytes = 0) : utf8_step s b = (⟨s.code_pt, 0⟩, [b]) := by
  have h1 : ¬(b = 0xC0 ∨ b = 0xC1 ∨ 0xF5 ≤ b) := by omega
  have h2 : b &&& 128 = 0 := (byte_and128 b (by omega)).mpr hb
  simp [utf8_step, h1, h2, he]

/-- A 2-byte leader with no pending sequence starts a length-1 expectation. -/
theorem utf8_step_lead2 (s : Dec_state) (b : Nat) (hb1 : 194 ≤ b) (hb2 : b < 224)
    (he : s.expected_bytes = 0) : utf8_step s b = (⟨b % 32, 1⟩, []) := by
  have h1 : ¬(b = 0xC0 ∨ b = 0xC1 ∨ 0xF5 ≤ b) := by omega
  have h2 : ¬(b &&& 128 = 0) := by
    rw [byte_and128 b (by omega)]; omega
  have h3 : b &&& 192 = 192 := (byte_and192 b (by omega)).mpr (by omega)
  have h4 : b &&& 224 = 192 := (byte_and224 b (by omega)).mpr (by omega)
  have h5 : b &&& 31 = b % 32 := byte_and31 b (by omega)
  simp [utf8_step, h1, h2, h3, h4, h5, he]

/-- A 3-byte leader with no pending sequence starts a length-2 expectation. -/
theorem utf8_step_lead3 (s : Dec_state) (b : Nat) (hb1 : 224 ≤ b) (hb2 : b < 240)
    (he : s.expected_bytes = 0) : utf8_step s b = (⟨b % 16, 2⟩, []) := by
  have h1 : ¬(b = 0xC0 ∨ b = 0xC1 ∨ 0xF5 ≤ b) := by omega
  have h2 : ¬(b &&& 128 = 0) := by
    rw [byte_and128 b (by omega)]; omega
  have h3 : b &&& 192 = 192 := (byte_and192 b (by omega)).mpr (by omega)
  have h4 : ¬(b &&& 224 = 192) := by
    rw [byte_and224 b (by omega)]; omega
  have h5 : b &&& 240 = 224 := (byte_and240 b (by omega)).mpr (by omega)
  have h6 : b &&& 15 = b % 16 := byte_and15 b (by omega)
  simp [utf8_step, h1, h2, h3, h4, h5, h6, he]

/-- A 4-byte leader (below the always-invalid 0xF5) with no pending sequence
starts a length-3 expectation. -/
theorem utf8_step_lead4 (s : Dec_state) (b : Nat) (hb1 : 240 ≤ b) (hb2 : b < 245)
    (he : s.expected_bytes = 0) : utf8_step s b = (⟨b % 8, 3⟩, []) := by
  have h1 : ¬(b = 0xC0 ∨ b = 0xC1 ∨ 0xF5 ≤ b) := by omega
  have h2 : ¬(b &&& 128 = 0) := by
    rw [byte_and128 b (by omega)]; omega
  have h3 : b &&& 192 = 192 := (byte_and192 b (by omega)).mpr (by omega)
  have h4 : ¬(b &&& 224 = 192) := by
    rw [byte_and224 b (by omega)]; omega
  have h5 : ¬(b &&& 240 = 224) := by
    rw [byte_and240 b (by omega)]; omega
  have h6 : b &&& 248 = 240 := (byte_and248 b (by omega)).mpr (by omega)
  have h7 : b &&& 7 = b % 8 := byte_and7 b (by omega)
  simp [utf8_step, h1, h2, h3, h4, h5, h6, h7, he]

/-- A continuation byte with a pending sequence accumulates 6 bits, emitting
the code point when the expectation reaches zero. -/
theorem utf8_step_cont (s : Dec_state) (b : Nat) (hb1 : 128 ≤ b) (hb2 : b < 192)
    (he : s.expected_bytes ≠ 0) :
    utf8_step s b =
      if s.expected_bytes - 1 = 0 then
        (⟨64 * s.code_pt + b % 64, 0⟩, [64 * s.code_pt + b % 64])
      else
        (⟨64 * s.code_pt + b % 64, s.expected_bytes - 1⟩, []) := by
  have h1 : ¬(b = 0xC0 ∨ b = 0xC1 ∨ 0xF5 ≤ b) := by omega
  have h2 : ¬(b &&& 128 = 0) := by
    rw [byte_and128 b (by omega)]; omega
  have h3 : ¬(b &&& 192 = 192) := by
    rw [byte_and192 b (by omega)]; omega
  have h4 : b &&& 63 = b % 64 := byte_and63 b (by omega)
  have h5 : s.code_pt <<< 6 ||| b % 64 = 64 * s.code_pt + b % 64 :=
    shift6_or s.code_pt (b % 64) (Nat.mod_lt _ (by omega))
  simp [utf8_step, h1, h2, h3, h4, h5, he]

/-! ### Run lemmas -/

/-- Output accumulation of the decoder fold. -/
theorem utf8_run_out (bytes : List Nat) : ∀ (s : Dec_state) (o : List Nat),
    bytes.foldl (fun acc b =>
        let r := utf8_step acc.1 b
        (r.1, acc.2 ++ r.2)) (s, o) =
      ((utf8_run s bytes).1, o ++ (utf8_run s bytes).2) := by
  induction bytes with
  | nil => intro s o; simp [utf8_run]
  | cons b bs ih =>
    intro s o
    have hrun : utf8_run s (b :: bs) =
        ((utf8_run (utf8_step s b).1 bs).1,
          (utf8_step s b).2 ++ (utf8_run (utf8_step s b).1 bs).2) := by
      unfold utf8_run
      simp only [List.foldl_cons]
      rw [ih]
      simp [utf8_run]
    rw [hrun]
    simp only [List.foldl_cons]
    rw [ih]
    simp [utf8_run]

/-- Unfolding the decoder run on a cons cell. -/
theorem utf8_run_cons (s : Dec_state) (b : Nat) (bs : List Nat) :
    utf8_run s (b :: bs) =
      ((utf8_run (utf8_step s b).1 bs).1,
        (utf8_step s b).2 ++ (utf8_run (utf8_step s b).1 bs).2) := by
  unfold utf8_run
  simp only [List.foldl_cons]
  rw [utf8_run_out]
  simp [utf8_run]

/-- The decoder run splits over appends. -/
theorem utf8_run_append (xs ys : List Nat) : ∀ s : Dec_state,
    utf8_run s (xs ++ ys) =
      ((utf8_run (utf8_run s xs).1 ys).1,
        (utf8_run s xs).2 ++ (utf8_run (utf8_run s xs).1 ys).2) := by
  induction xs with
  | nil => intro s; simp [utf8_run]
  | cons b bs ih =>
    intro s
    rw [List.cons_append, utf8_run_cons, utf8_run_cons, ih]
    simp [List.append_assoc]

/-! ### C1: decoder robustness -/

/-- C1: the UTF-8 decoder is total and lossy-but-never-failing: an always
invalid byte (0xC0, 0xC1, or >= 0xF5) yields exactly one replacement code
point and resets the decoder state; a truncated multi-byte sequence cut off
by an ASCII byte yields exactly one replacement followed by that byte; one
cut off by a new leading byte yields exactly one replacement during that
iteration; one cut off by end of input yields exactly one trailing
replacement; and decoding the bytes 0x41 0xC0 0x42 yields exactly
[0x41, replacement, 0x42]. -/
theorem utf8_decoder_robustness :
    (∀ cp eb b, (b = 0xC0 ∨ b = 0xC1 ∨ 0xF5 ≤ b) →
      utf8_step ⟨cp, eb⟩ b = (⟨cp, 0⟩, [replacement_char])) ∧
    (∀ cp eb b, b < 0x80 → eb ≠ 0 →
      utf8_step ⟨cp, eb⟩ b = (⟨cp, 0⟩, [replacement_char, b])) ∧
    (∀ cp eb b, b < 256 → ¬(b = 0xC0 ∨ b = 0xC1 ∨ 0xF5 ≤ b) →
      b &&& 0xC0 = 0xC0 → eb ≠ 0 →
      (utf8_step ⟨cp, eb⟩ b).2 = [replacement_char]) ∧
    (∀ bytes, 0 < (utf8_run ⟨0, 0⟩ bytes).1.expected_bytes →
      utf8_to_utf32 bytes = (utf8_run ⟨0, 0⟩ bytes).2 ++ [replacement_char]) ∧
    utf8_to_utf32 [0x41, 0xC0, 0x42] = [0x41, replacement_char, 0x42] := by
  refine ⟨?_, ?_, ?_, ?_, ?_⟩
  · intro cp eb b h
    simp [utf8_step, h]
  · intro cp eb b hb he
    have h1 : ¬(b = 0xC0 ∨ b = 0xC1 ∨ 0xF5 ≤ b) := by omega
    have h2 : b &&& 128 = 0 := (byte_and128 b (by omega)).mpr hb
    simp [utf8_step, h1, h2, he]
  · intro cp eb b hb hinv hlead he
    have hge : 192 ≤ b := (byte_and192 b hb).mp hlead
    have hlt : b < 245 := by omega
    rcases Nat.lt_or_ge b 224 with h2 | h2
    · have h4 : b &&& 224 = 192 := (byte_and224 b hb).mpr ⟨hge, h2⟩
      have h128 : ¬(b &&& 128 = 0) := by rw [byte_and128 b hb]; omega
      simp [utf8_step, hinv, h128, hlead, h4, he]
    · rcases Nat.lt_or_ge b 240 with h3 | h3
      · have h4 : ¬(b &&& 224 = 192) := by rw [byte_and224 b hb]; omega
        have h5 : b &&& 240 = 224 := (byte_and240 b hb).mpr ⟨h2, h3⟩
        have h128 : ¬(b &&& 128 = 0) := by rw [byte_and128 b hb]; omega
        simp [utf8_step, hinv, h128, hlead, h4, h5, he]
      · have h4 : ¬(b &&& 224 = 192) := by rw [byte_and224 b hb]; omega
        have h5 : ¬(b &&& 240 = 224) := by rw [byte_and240 b hb]; omega
        have h6 : b &&& 248 = 240 := (byte_and248 b hb).mpr ⟨h3, by omega⟩
        have h128 : ¬(b &&& 128 = 0) := by rw [byte_and128 b hb]; omega
        simp [utf8_step, hinv, h128, hlead, h4, h5, h6, he]
  · intro bytes h
    unfold utf8_to_utf32
    simp [h]
  · decide

/-- Witness for `utf8_decoder_robustness` at concrete inputs. -/
theorem utf8_decoder_robustness_witness :
    utf8_step ⟨0, 1⟩ 0xC0 = (⟨0, 0⟩, [replacement_char]) ∧
    utf8_step ⟨0, 1⟩ 0x41 = (⟨0, 0⟩, [replacement_char, 0x41]) ∧
    (utf8_step ⟨0, 1⟩ 0xC3).2 = [replacement_char] ∧
    utf8_to_utf32 [0xC3] = (utf8_run ⟨0, 0⟩ [0xC3]).2 ++ [replacement_char] :=
  ⟨utf8_decoder_robustness.1 0 1 0xC0 (by decide),
   utf8_decoder_robustness.2.1 0 1 0x41 (by decide) (by decide),
   utf8_decoder_robustness.2.2.1 0 1 0xC3 (by decide) (by decide) (by decide)
     (by decide),
   utf8_decoder_robustness.2.2.2.1 [0xC3] (by decide)⟩

/-! ### C8: decoder round-trip on valid input -/

/-- Decoding one valid (shortest-form) encoding from a clean state emits
exactly that code point and returns to a clean state. -/
theorem utf8_run_encode (c : Nat) (hc : c < 0x110000) (cp : Nat) :
    ∃ cp2, utf8_run ⟨cp, 0⟩ (encode_utf8 c) = (⟨cp2, 0⟩, [c]) := by
  rcases Nat.lt_or_ge c 0x80 with h1 | h1
  · have e : encode_utf8 c = [c] := by
      simp only [encode_utf8, if_pos h1]
    rw [e, utf8_run_cons, utf8_step_ascii _ _ h1 rfl]
    exact ⟨cp, by simp [utf8_run]⟩
  · rcases Nat.lt_or_ge c 0x800 with h2 | h2
    · have e : encode_utf8 c = [0xC0 + c / 0x40, 0x80 + c % 0x40] := by
        simp only [encode_utf8, if_neg (by omega : ¬c < 0x80), if_pos h2]
      rw [e, utf8_run_cons, utf8_step_lead2 _ _ (by omega) (by omega) rfl]
      rw [utf8_run_cons, utf8_step_cont _ _ (by omega) (by omega) (by simp)]
      refine ⟨64 * ((0xC0 + c / 0x40) % 32) + (0x80 + c % 0x40) % 64, ?_⟩
      simp [utf8_run]; omega
    · rcases Nat.lt_or_ge c 0x10000 with h3 | h3
      · have e : encode_utf8 c =
            [0xE0 + c / 0x1000, 0x80 + (c / 0x40) % 0x40, 0x80 + c % 0x40] := by
          simp only [encode_utf8, if_neg (by omega : ¬c < 0x80),
            if_neg (by omega : ¬c < 0x800), if_pos h3]
        rw [e, utf8_run_cons, utf8_step_lead3 _ _ (by omega) (by omega) rfl]
        rw [utf8_run_cons, utf8_step_cont _ _ (by omega) (by omega) (by simp)]
        simp only [show (2 : Nat) - 1 = 1 by rfl, if_neg (by omega : ¬(1 : Nat) = 0)]
        rw [utf8_run_cons, utf8_step_cont _ _ (by omega) (by omega) (by simp)]
        refine ⟨64 * (64 * ((0xE0 + c / 0x1000) % 16) +
          (0x80 + (c / 0x40) % 0x40) % 64) + (0x80 + c % 0x40) % 64, ?_⟩
        simp [utf8_run]; omega
      · have e : encode_utf8 c =
            [0xF0 + c / 0x40000, 0x80 + (c / 0x1000) % 0x40,
             0x80 + (c / 0x40) % 0x40, 0x80 + c % 0x40] := by
          simp only [encode_utf8, if_neg (by omega : ¬c < 0x80),
            if_neg (by omega : ¬c < 0x800), if_neg (by omega : ¬c < 0x10000)]
        have hb0 : 0xF0 + c / 0x40000 < 245 := by omega
        rw [e, utf8_run_cons, utf8_step_lead4 _ _ (by omega) hb0 rfl]
        rw [utf8_run_cons, utf8_step_cont _ _ (by omega) (by omega) (by simp)]
        simp only [show (3 : Nat) - 1 = 2 by rfl, if_neg (by omega : ¬(2 : Nat) = 0)]
        rw [utf8_run_cons, utf8_step_cont _ _ (by omega) (by omega) (by simp)]
        simp only [show (2 : Nat) - 1 = 1 by rfl, if_neg (by omega : ¬(1 : Nat) = 0)]
        rw [utf8_run_cons, utf8_step_cont _ _ (by omega) (by omega) (by simp)]
        refine ⟨64 * (64 * (64 * ((0xF0 + c / 0x40000) % 8) +
          (0x80 + (c / 0x1000) % 0x40) % 64) + (0x80 + (c / 0x40) % 0x40) % 64) +
          (0x80 + c % 0x40) % 64, ?_⟩
        simp [utf8_run]; omega

/-- Decoding a concatenation of valid encodings from a clean state yields
exactly the encoded code points and ends in a clean state. -/
theorem utf8_run_encode_list : ∀ (cps : List Nat), (∀ c ∈ cps, c < 0x110000) →
    ∀ cp : Nat, ∃ cp2,
      utf8_run ⟨cp, 0⟩ ((cps.map encode_utf8).flatten) = (⟨cp2, 0⟩, cps) := by
  intro cps
  induction cps with
  | nil => intro _ cp; exact ⟨cp, by simp [utf8_run]⟩
  | cons c rest ih =>
    intro h cp
    have hc : c < 0x110000 := h c (by simp)
    simp only [List.map_cons, List.flatten_cons]
    rw [utf8_run_append]
    obtain ⟨cp1, h1⟩ := utf8_run_encode c hc cp
    rw [h1]
    obtain ⟨cp2, h2⟩ := ih (fun d hd => h d (by simp [hd])) cp1
    rw [h2]
    exact ⟨cp2, by simp⟩

/-- C8: for every byte string that is a concatenation of valid UTF-8
encodings of Unicode scalar values, `utf8_to_utf32` yields exactly that
sequence of scalar values, and hence re-encoding the decoded sequence
reproduces the original byte string. -/
theorem utf8_round_trip (cps : List Nat) (h : ∀ c ∈ cps, Is_scalar c) :
    utf8_to_utf32 ((cps.map encode_utf8).flatten) = cps ∧
    ((utf8_to_utf32 ((cps.map encode_utf8).flatten)).map encode_utf8).flatten =
      (cps.map encode_utf8).flatten := by
  obtain ⟨cp2, hrun⟩ := utf8_run_encode_list cps (fun c hc => (h c hc).1) 0
  have hd : utf8_to_utf32 ((cps.map encode_utf8).flatten) = cps := by
    unfold utf8_to_utf32
    rw [hrun]
    simp
  exact ⟨hd, by rw [hd]⟩

/-- Witness for `utf8_round_trip` at a concrete scalar sequence containing a
1-, 2-, 3- and 4-byte character. -/
theorem utf8_round_trip_witness :
    (∀ c ∈ [0x41, 0xE9, 0x4E2D, 0x1F600], Is_scalar c) ∧
    utf8_to_utf32 (([0x41, 0xE9, 0x4E2D, 0x1F600].map encode_utf8).flatten) =
      [0x41, 0xE9, 0x4E2D, 0x1F600] :=
  ⟨by decide, (utf8_round_trip [0x41, 0xE9, 0x4E2D, 0x1F600] (by decide)).1⟩

/-! ### C9: behaviour of resize on size-selection failure -/

/-- C9 counterexample: when the rasterizer rejects the requested size,
`resize` raises the error BEFORE touching any metric: at this concrete
instance (non-empty page map) the error propagates with every metric - cell
bounding box, line height, texture dimensions and page map - still holding
its prior value, so the claim that the metrics have already been mutated when
the error is raised is false. -/
theorem resize_failure_counterexample :
    resize sample_metrics false sample_face_metrics = Except.error sample_metrics ∧
    sample_metrics.page_map = [(0, 100)] ∧ sample_metrics.page_map ≠ [] ∧
    sample_metrics.cell_bbox = ⟨⟨-1, 11⟩, ⟨9, -3⟩⟩ := by
  refine ⟨rfl, rfl, ?_, rfl⟩
  simp [sample_metrics]

/-- C9 (amended): when `FT_Set_Pixel_Sizes` rejects the requested size,
`resize` throws before mutating anything: the failure leaves the cell
bounding box, line height, texture dimensions and page map exactly as they
were (on this failure path resize IS transactional). -/
theorem resize_failure_transactional (m : Font_metrics) (ft : Face_metrics) :
    resize m false ft = Except.error m := rfl

/-! ### C10: inputs that produce no glyph geometry -/

/-- ASCII-only byte strings decode to themselves. -/
theorem utf8_run_ascii (bytes : List Nat) (h : ∀ b ∈ bytes, b < 128) :
    ∀ cp : Nat, utf8_run ⟨cp, 0⟩ bytes = (⟨cp, 0⟩, bytes) := by
  induction bytes with
  | nil => intro cp; simp [utf8_run]
  | cons b bs ih =>
    intro cp
    rw [utf8_run_cons, utf8_step_ascii _ _ (h b (by simp)) rfl]
    rw [ih (fun d hd => h d (by simp [hd]))]
    simp

/-- Processing only-newline code points leaves everything except the pen and
the kerning state untouched. -/
theorem build_fold_newlines (P : Font_params) (cps : List Nat)
    (h : ∀ c ∈ cps, c = 10) : ∀ s : Build_state,
    ((cps.foldl (build_step P) s).font_box = s.font_box ∧
     (cps.foldl (build_step P) s).groups = s.groups) ∧
    ((cps.foldl (build_step P) s).page_map = s.page_map ∧
     (cps.foldl (build_step P) s).loads = s.loads) := by
  induction cps with
  | nil => intro s; simp
  | cons c cs ih =>
    intro s
    have hc : c = 10 := h c (by simp)
    have hstep : build_step P s c =
        { s with pen := ⟨0, s.pen.y + P.line_height⟩, prev_glyph_i := 0 } := by
      simp [build_step, hc]
    simp only [List.foldl_cons, hstep]
    exact ih (fun d hd => h d (by simp [hd])) _

/-- C10: an input producing no glyph geometry (the empty string, or a string
of newline bytes only) yields an empty vertex buffer, an empty page-range
list, and the bounding box still holding its sentinel corners
(FLT_MAX, FLT_MAX) and (FLT_MIN, FLT_MIN), where FLT_MIN is the smallest
POSITIVE normalized float 2^-126 (not the most negative float); alignment of
such a string computes its offset from these sentinels (left+top alignment
resolves to (FLT_MAX, FLT_MAX)). -/
theorem build_text_no_geometry (P : Font_params) (pm : Page_map)
    (iter : List (Nat × List (Vec2 ℚ)) → List (Nat × List (Vec2 ℚ)))
    (hiter : ∀ g, (iter g).Perm g) (utf8 : List Nat) (h : ∀ b ∈ utf8, b = 10) :
    (build_text P pm iter utf8).coords = [] ∧
    (build_text P pm iter utf8).coord_data = [] ∧
    (build_text P pm iter utf8).font_box = ⟨⟨flt_max, flt_max⟩, ⟨flt_min, flt_min⟩⟩ ∧
    flt_min = 1 / 2 ^ 126 ∧ 0 < flt_min ∧
    start_offset 0x5 (build_text P pm iter utf8).font_box = ⟨flt_max, flt_max⟩ := by
  have hascii : ∀ b ∈ utf8, b < 128 := fun b hb => by
    have := h b hb; omega
  have hdec : utf8_to_utf32 utf8 = utf8 := by
    unfold utf8_to_utf32
    rw [utf8_run_ascii utf8 hascii 0]
    simp
  have hfold := build_fold_newlines P utf8 h (build_init pm)
  have hgroups : ((utf8_to_utf32 utf8).foldl (build_step P) (build_init pm)).groups = [] := by
    rw [hdec]; exact hfold.1.2
  have hbox : ((utf8_to_utf32 utf8).foldl (build_step P) (build_init pm)).font_box =
      ⟨⟨flt_max, flt_max⟩, ⟨flt_min, flt_min⟩⟩ := by
    rw [hdec]; exact hfold.1.1
  have hiter_nil : iter [] = [] := (hiter []).eq_nil
  refine ⟨?_, ?_, ?_, rfl, by norm_num [flt_min], ?_⟩
  · simp [build_text, hgroups, hiter_nil, regroup]
  · simp [build_text, hgroups, hiter_nil, regroup]
  · simp [build_text, hbox]
  · have e3 : (5 : Nat) &&& 3 = 1 := rfl
    have eC : (5 : Nat) &&& 12 = 4 := rfl
    simp [build_text, hbox, start_offset, e3, eC]

/-- Witness for `build_text_no_geometry`: the empty input and a two-newline
input with the identity iteration order. -/
theorem build_text_no_geometry_witness :
    (build_text sample_params [] id []).coords = [] ∧
    (build_text sample_params [] id [10, 10]).coord_data = [] ∧
    (build_text sample_params [] id [10, 10]).font_box =
      ⟨⟨flt_max, flt_max⟩, ⟨flt_min, flt_min⟩⟩ :=
  ⟨(build_text_no_geometry sample_params [] id (fun g => List.Perm.refl g) []
      (by simp)).1,
   (build_text_no_geometry sample_params [] id (fun g => List.Perm.refl g) [10, 10]
      (by decide)).2.1,
   (build_text_no_geometry sample_params [] id (fun g => List.Perm.refl g) [10, 10]
      (by decide)).2.2.1⟩

/-! ### C4: pages are built at most once -/

/-- A page present in the map is still found after appending entries. -/
theorem page_lookup_append (pm : Page_map) (l : Page_map) (p : Nat) (t : Nat)
    (h : page_lookup pm p = some t) : page_lookup (pm ++ l) p = some t := by
  induction pm with
  | nil => simp [page_lookup] at h
  | cons e rest ih =>
    obtain ⟨k, v⟩ := e
    by_cases he : k = p
    · simp only [page_lookup, if_pos he] at h
      simp only [List.cons_append, page_lookup, if_pos he]
      exact h
    · simp only [page_lookup, if_neg he] at h
      simp only [List.cons_append, page_lookup, if_neg he]
      exact ih h

/-- A page absent from the map is found after being appended. -/
theorem page_lookup_append_self (pm : Page_map) (p v : Nat)
    (h : page_lookup pm p = none) : page_lookup (pm ++ [(p, v)]) p = some v := by
  induction pm with
  | nil => simp [page_lookup]
  | cons e rest ih =>
    obtain ⟨k, v⟩ := e
    by_cases he : k = p
    · simp [page_lookup, if_pos he] at h
    · simp only [page_lookup, if_neg he] at h
      simp only [List.cons_append, page_lookup, if_neg he]
      exact ih h

/-- One layout step never reloads or replaces a page already in the map, and
never logs a load for it. -/
theorem build_step_preserves_page (P : Font_params) (s : Build_state)
    (c p t : Nat) (h : page_lookup s.page_map p = some t)
    (hl : p ∉ s.loads) :
    page_lookup (build_step P s c).page_map p = some t ∧
    p ∉ (build_step P s c).loads := by
  by_cases hc : c = 10
  · simpa [build_step, hc] using ⟨h, hl⟩
  · simp only [build_step, if_neg hc]
    rcases hpg : page_lookup s.page_map (c >>> 8) with _ | tex
    · have hne : c >>> 8 ≠ p := by
        intro he; rw [he, h] at hpg; exact Option.noConfusion hpg
      simp only [get_or_load_page, hpg]
      refine ⟨page_lookup_append s.page_map [(c >>> 8, P.mk_page_tex (c >>> 8))] p t h, ?_⟩
      intro hin
      rcases List.mem_append.mp hin with h1 | h1
      · exact hl h1
      · exact hne (List.mem_singleton.mp h1).symm
    · simp only [get_or_load_page, hpg]
      exact ⟨h, hl⟩

/-- The whole layout pass never reloads or replaces a page already in the
map, and never logs a load for it. -/
theorem build_fold_preserves_page (P : Font_params) (cps : List Nat) :
    ∀ (s : Build_state) (p t : Nat), page_lookup s.page_map p = some t →
    p ∉ s.loads →
    page_lookup ((cps.foldl (build_step P) s)).page_map p = some t ∧
    p ∉ ((cps.foldl (build_step P) s)).loads := by
  induction cps with
  | nil => intro s p t h hl; exact ⟨h, hl⟩
  | cons c rest ih =>
    intro s p t h hl
    obtain ⟨h1, h2⟩ := build_step_preserves_page P s c p t h hl
    exact ih (build_step P s c) p t h1 h2

/-- C4 (as claimed): the page-request unit of `build_text` builds a page only
when it is absent; a second request for the same page finds the entry the
first request cached, returns the identical page (same texture identity),
performs no load, and leaves the map untouched; and across a whole
`build_text` call an already-present page is never reloaded (no load event)
and its cached entry is never replaced. -/
theorem page_built_at_most_once :
    (∀ (P : Font_params) (pm : Page_map) (p : Nat),
      (get_or_load_page P (get_or_load_page P pm p).1 p).2.1 =
        (get_or_load_page P pm p).2.1 ∧
      (get_or_load_page P (get_or_load_page P pm p).1 p).2.2 = false ∧
      (get_or_load_page P (get_or_load_page P pm p).1 p).1 =
        (get_or_load_page P pm p).1) ∧
    (∀ (P : Font_params) (pm : Page_map)
      (iter : List (Nat × List (Vec2 ℚ)) → List (Nat × List (Vec2 ℚ)))
      (utf8 : List Nat) (p t : Nat), page_lookup pm p = some t →
      page_lookup (build_text P pm iter utf8).page_map p = some t ∧
      p ∉ (build_text P pm iter utf8).loads) := by
  constructor
  · intro P pm p
    rcases hpg : page_lookup pm p with _ | tex
    · have h2 : page_lookup (pm ++ [(p, P.mk_page_tex p)]) p =
          some (P.mk_page_tex p) := page_lookup_append_self pm p _ hpg
      simp [get_or_load_page, hpg, h2]
    · simp [get_or_load_page, hpg]
  · intro P pm iter utf8 p t h
    have := build_fold_preserves_page P (utf8_to_utf32 utf8) (build_init pm) p t
      (by simpa [build_init] using h) (by simp [build_init])
    simpa [build_text] using this

/-- Witness for `page_built_at_most_once` at a concrete map and page. -/
theorem page_built_at_most_once_witness :
    (get_or_load_page sample_params
        (get_or_load_page sample_params [] 0).1 0).2.2 = false ∧
    page_lookup (build_text sample_params [(0, 42)] id [0x41]).page_map 0 = some 42 ∧
    0 ∉ (build_text sample_params [(0, 42)] id [0x41]).loads :=
  ⟨(page_built_at_most_once.1 sample_params [] 0).2.1,
   (page_built_at_most_once.2 sample_params [(0, 42)] id [0x41] 0 42 rfl).1,
   (page_built_at_most_once.2 sample_params [(0, 42)] id [0x41] 0 42 rfl).2⟩

/-! ### C5: the layout bounding box -/

/-- The running bounding box computed by the layout loop is the fold of
min/max over the placed ink boxes, starting from the box the loop entered
with, componentwise. -/
theorem build_fold_box (P : Font_params) : ∀ (cps : List Nat) (s : Build_state),
    ((cps.foldl (build_step P) s).font_box.ul.x =
      ((placed_boxes P s.pen s.prev_glyph_i cps).map fun b => b.ul.x).foldl min
        s.font_box.ul.x) ∧
    ((cps.foldl (build_step P) s).font_box.ul.y =
      ((placed_boxes P s.pen s.prev_glyph_i cps).map fun b => b.ul.y).foldl min
        s.font_box.ul.y) ∧
    ((cps.foldl (build_step P) s).font_box.lr.x =
      ((placed_boxes P s.pen s.prev_glyph_i cps).map fun b => b.lr.x).foldl max
        s.font_box.lr.x) ∧
    ((cps.foldl (build_step P) s).font_box.lr.y =
      ((placed_boxes P s.pen s.prev_glyph_i cps).map fun b => b.lr.y).foldl max
        s.font_box.lr.y) := by
  intro cps
  induction cps with
  | nil => intro s; simp [placed_boxes]
  | cons c rest ih =>
    intro s
    by_cases hc : c = 10
    · have hstep : build_step P s c =
          { s with pen := ⟨0, s.pen.y + P.line_height⟩, prev_glyph_i := 0 } := by
        simp [build_step, hc]
      have h2 := ih { s with pen := ⟨0, s.pen.y + P.line_height⟩, prev_glyph_i := 0 }
      simp only [List.foldl_cons, hstep, placed_boxes, if_pos hc]
      exact h2
    · have h2 := ih (build_step P s c)
      simp only [List.foldl_cons] at h2 ⊢
      rw [h2.1, h2.2.1, h2.2.2.1, h2.2.2.2]
      simp only [placed_boxes, if_neg hc, List.map_cons, List.foldl_cons]
      simp [build_step, hc]

/-- C5 (amended): the bounding box returned by `build_text` is, componentwise,
the min (for the upper-left) / max (for the lower-right) over the placed
glyph ink boxes TOGETHER WITH the sentinel corners (FLT_MAX, FLT_MAX) and
(FLT_MIN, FLT_MIN) the box is initialized with; newline code points
contribute nothing.  It coincides with the pure min/max over the placed
boxes exactly when those reach past the sentinels, which fails for the
lower-right components whenever every placed value is below FLT_MIN = 2^-126
(e.g. text whose ink sits on or above the baseline). -/
theorem build_text_box (P : Font_params) (pm : Page_map)
    (iter : List (Nat × List (Vec2 ℚ)) → List (Nat × List (Vec2 ℚ)))
    (utf8 : List Nat) :
    ((build_text P pm iter utf8).font_box.ul.x =
      ((placed_boxes P ⟨0, 0⟩ 0 (utf8_to_utf32 utf8)).map fun b => b.ul.x).foldl
        min flt_max) ∧
    ((build_text P pm iter utf8).font_box.ul.y =
      ((placed_boxes P ⟨0, 0⟩ 0 (utf8_to_utf32 utf8)).map fun b => b.ul.y).foldl
        min flt_max) ∧
    ((build_text P pm iter utf8).font_box.lr.x =
      ((placed_boxes P ⟨0, 0⟩ 0 (utf8_to_utf32 utf8)).map fun b => b.lr.x).foldl
        max flt_min) ∧
    ((build_text P pm iter utf8).font_box.lr.y =
      ((placed_boxes P ⟨0, 0⟩ 0 (utf8_to_utf32 utf8)).map fun b => b.lr.y).foldl
        max flt_min) := by
  have h := build_fold_box P (utf8_to_utf32 utf8) (build_init pm)
  simpa [build_text, build_init] using h

/-- C5 counterexample: a single glyph whose ink box lies above the baseline.
The placed ink box is ul (0,-10), lr (5,-2), so the maximum of lower-right
y values over all placed boxes is -2; but `build_text` returns FLT_MIN =
2^-126 for that component (the sentinel wins the max), so the returned box is
NOT the componentwise min/max of the placed ink boxes. -/
theorem build_text_box_counterexample :
    (placed_boxes sample_params ⟨0, 0⟩ 0 (utf8_to_utf32 [0x41])).map
        (fun b => b.lr.y) = [-2] ∧
    (build_text sample_params [] id [0x41]).font_box.lr.y = flt_min ∧
    (flt_min : ℚ) ≠ -2 := by
  have hdec : utf8_to_utf32 [0x41] = [0x41] := by
    unfold utf8_to_utf32
    rw [utf8_run_ascii [0x41] (by decide) 0]
    simp
  refine ⟨?_, ?_, ?_⟩
  · rw [hdec]
    simp [placed_boxes, kerned_pen, sample_params, sample_char]
  · unfold build_text
    rw [hdec]
    simp [build_init, build_step, kerned_pen, sample_params, sample_char]
    norm_num [flt_min]
  · norm_num [flt_min]

/-! ### C6: per-glyph vertex order -/

/-- Each non-newline code point appends to its page exactly the six
vertex/texture pairs lower-left, lower-right, upper-left, upper-left,
lower-right, upper-right of the placed ink box. -/
theorem build_step_glyph_groups (P : Font_params) (s : Build_state) (cp : Nat)
    (h : cp ≠ 10) :
    (build_step P s cp).groups =
      groups_append s.groups (cp >>> 8)
        (let c := P.char_info cp
         let pen := kerned_pen P s.pen s.prev_glyph_i c
         [ll_corner pen c, tex_ll P cp c,
          lr_corner pen c, tex_lr P cp c,
          ul_corner pen c, tex_ul P cp c,
          ul_corner pen c, tex_ul P cp c,
          lr_corner pen c, tex_lr P cp c,
          ur_corner pen c, tex_ur P cp c]) := by
  simp [build_step, h, ll_corner, lr_corner, ul_corner, ur_corner,
    tex_ll, tex_lr, tex_ul, tex_ur]

/-- C6 (amended): each glyph's six vertices enter the buffer in the order
lower-left, lower-right, upper-left, then upper-left, lower-right,
upper-right of its placed ink bounding box (the same two triangles as
claimed, but the first triangle starts at the lower-left vertex, not the
upper-left), each vertex paired with the corresponding normalized texture
coordinate of its page; for a single-glyph input this is exactly the buffer
`build_text` returns. -/
theorem glyph_vertex_order (P : Font_params) (s : Build_state) (cp : Nat)
    (h : cp ≠ 10) :
    ((build_step P s cp).groups =
      groups_append s.groups (cp >>> 8)
        (let c := P.char_info cp
         let pen := kerned_pen P s.pen s.prev_glyph_i c
         [ll_corner pen c, tex_ll P cp c,
          lr_corner pen c, tex_lr P cp c,
          ul_corner pen c, tex_ul P cp c,
          ul_corner pen c, tex_ul P cp c,
          lr_corner pen c, tex_lr P cp c,
          ur_corner pen c, tex_ur P cp c])) ∧
    (∀ (pm : Page_map)
      (iter : List (Nat × List (Vec2 ℚ)) → List (Nat × List (Vec2 ℚ))),
      (∀ g, (iter g).Perm g) → ∀ b : Nat, b < 128 → b ≠ 10 →
      (build_text P pm iter [b]).coords =
        (let c := P.char_info b
         [ll_corner ⟨0, 0⟩ c, tex_ll P b c,
          lr_corner ⟨0, 0⟩ c, tex_lr P b c,
          ul_corner ⟨0, 0⟩ c, tex_ul P b c,
          ul_corner ⟨0, 0⟩ c, tex_ul P b c,
          lr_corner ⟨0, 0⟩ c, tex_lr P b c,
          ur_corner ⟨0, 0⟩ c, tex_ur P b c])) := by
  constructor
  · exact build_step_glyph_groups P s cp h
  · intro pm iter hiter b hb hbn
    have hdec : utf8_to_utf32 [b] = [b] := by
      unfold utf8_to_utf32
      rw [utf8_run_ascii [b] (by intro x hx; simp at hx; omega) 0]
      simp
    unfold build_text
    rw [hdec]
    simp only [List.foldl_cons, List.foldl_nil]
    rw [build_step_glyph_groups P (build_init pm) b hbn]
    have hpen : kerned_pen P (build_init pm).pen (build_init pm).prev_glyph_i
        (P.char_info b) = ⟨0, 0⟩ := by
      simp [kerned_pen, build_init]
    simp only [build_init, groups_append, hpen]
    have hsing : ∀ e : Nat × List (Vec2 ℚ), iter [e] = [e] := fun e =>
      (List.perm_singleton).mp (hiter [e])
    simp only [hsing]
    simp [regroup, kerned_pen]

/-- Witness for `glyph_vertex_order` at a concrete glyph and state. -/
theorem glyph_vertex_order_witness :
    (build_step sample_params (build_init []) 0x41).groups =
      groups_append (build_init []).groups (0x41 >>> 8)
        (let c := sample_params.char_info 0x41
         let pen := kerned_pen sample_params (build_init []).pen
           (build_init []).prev_glyph_i c
         [ll_corner pen c, tex_ll sample_params 0x41 c,
          lr_corner pen c, tex_lr sample_params 0x41 c,
          ul_corner pen c, tex_ul sample_params 0x41 c,
          ul_corner pen c, tex_ul sample_params 0x41 c,
          lr_corner pen c, tex_lr sample_params 0x41 c,
          ur_corner pen c, tex_ur sample_params 0x41 c]) :=
  (glyph_vertex_order sample_params (build_init []) 0x41 (by decide)).1

/-- C6 counterexample: for a concrete glyph the first vertex written to the
buffer is the LOWER-left corner of the placed ink box, which differs from the
upper-left corner, so the claimed order upper-left/lower-left/lower-right for
the first triangle is false. -/
theorem glyph_vertex_order_counterexample :
    (build_text sample_params [] id [0x41]).coords.head? =
      some (ll_corner ⟨0, 0⟩ (sample_params.char_info 0x41)) ∧
    ll_corner ⟨0, 0⟩ (sample_params.char_info 0x41) = ⟨0, -2⟩ ∧
    ul_corner ⟨0, 0⟩ (sample_params.char_info 0x41) = ⟨0, -10⟩ ∧
    ll_corner ⟨0, 0⟩ (sample_params.char_info 0x41) ≠
      ul_corner ⟨0, 0⟩ (sample_params.char_info 0x41) := by
  have h := (glyph_vertex_order sample_params (build_init []) 0x41 (by decide)).2
    [] id (fun g => List.Perm.refl g) 0x41 (by decide) (by decide)
  refine ⟨?_, ?_, ?_, ?_⟩
  · rw [h]
    rfl
  · simp [ll_corner, sample_params, sample_char]
  · simp [ul_corner, sample_params, sample_char]
  · simp [ll_corner, ul_corner, sample_params, sample_char]

/-! ### C7: page-range order -/

/-- Appending items under a key adds the key at the end of the key list if it
is new, and leaves the key list unchanged otherwise. -/
theorem groups_append_keys (gs : List (Nat × List (Vec2 ℚ))) (k : Nat)
    (items : List (Vec2 ℚ)) :
    (groups_append gs k items).map Prod.fst = insert_new (gs.map Prod.fst) k := by
  induction gs with
  | nil => simp [groups_append, insert_new]
  | cons e rest ih =>
    obtain ⟨q, v⟩ := e
    by_cases hq : q = k
    · subst hq
      simp [groups_append, insert_new]
    · by_cases hk : k ∈ rest.map Prod.fst
      · simp [groups_append, hq, ih, insert_new, hk, Ne.symm hq]
      · simp [groups_append, hq, ih, insert_new, hk, Ne.symm hq]

/-- The page keys of the layout loop's vertex groups are the first
occurrences (in encounter order) of the non-newline code points' page
numbers, appended after the keys the loop entered with. -/
theorem build_fold_keys (P : Font_params) (cps : List Nat) :
    ∀ s : Build_state,
    (cps.foldl (build_step P) s).groups.map Prod.fst =
      ((cps.filter (fun c => decide (c ≠ 10))).map (fun c => c >>> 8)).foldl
        insert_new (s.groups.map Prod.fst) := by
  induction cps with
  | nil => intro s; simp
  | cons c rest ih =>
    intro s
    by_cases hc : c = 10
    · subst hc
      have hstep : (build_step P s 10).groups = s.groups := by
        simp [build_step]
      rw [List.foldl_cons, ih]
      simp [hstep]
    · rw [List.foldl_cons, ih]
      rw [build_step_glyph_groups P s c hc, groups_append_keys]
      simp [hc]

/-- Inserting new elements preserves distinctness of the key list. -/
theorem foldl_insert_new_nodup (l : List Nat) :
    ∀ acc : List Nat, acc.Nodup → (l.foldl insert_new acc).Nodup := by
  induction l with
  | nil => intro acc h; exact h
  | cons x xs ih =>
    intro acc h
    rw [List.foldl_cons]
    refine ih _ ?_
    by_cases hx : x ∈ acc
    · simpa [insert_new, hx] using h
    · simp [insert_new, hx, List.nodup_append, h]

/-- The page-range list produced by the regrouping pass lists the iterated
pages' keys in iteration order. -/
theorem regroup_fold_pages (pages : List (Nat × List (Vec2 ℚ))) :
    ∀ acc : List (Vec2 ℚ) × List Coord_data,
    ((pages.foldl (fun acc page =>
        let start := acc.1.length / 2
        let coords := acc.1 ++ page.2
        (coords, acc.2 ++ [⟨page.1, start, coords.length / 2 - start⟩])) acc).2).map
      (fun cd => cd.page_no) =
      acc.2.map (fun cd => cd.page_no) ++ pages.map Prod.fst := by
  induction pages with
  | nil => intro acc; simp
  | cons p rest ih =>
    intro acc
    rw [List.foldl_cons, ih]
    simp

/-- The page-range list of `build_text` lists the iterated groups' keys in
iteration order. -/
theorem build_text_pages (P : Font_params) (pm : Page_map)
    (iter : List (Nat × List (Vec2 ℚ)) → List (Nat × List (Vec2 ℚ)))
    (utf8 : List Nat) :
    (build_text P pm iter utf8).coord_data.map (fun cd => cd.page_no) =
      (iter ((utf8_to_utf32 utf8).foldl (build_step P) (build_init pm)).groups).map
        Prod.fst := by
  unfold build_text regroup
  rw [regroup_fold_pages]
  simp

/-- The draw loop of `render_text_common` logs one draw call per coordinate
range, in list order. -/
theorem render_fold_draws {M C V : Type} (page_tex : Nat → Nat)
    (cds : List Coord_data) :
    ∀ (t : GLState M C V) (ds : List (Nat × Nat × Nat)),
    (cds.foldl (fun (acc : GLState M C V × List (Nat × Nat × Nat)) cd =>
      let t := acc.1
      let t1 := { t with
        texture_2d := Function.update t.texture_2d t.active_texture (page_tex cd.page_no) }
      (t1, acc.2 ++ [(page_tex cd.page_no, cd.start, cd.num_elements)])) (t, ds)).2 =
      ds ++ cds.map (fun cd => (page_tex cd.page_no, cd.start, cd.num_elements)) := by
  induction cds with
  | nil => intro t ds; simp
  | cons cd rest ih =>
    intro t ds
    rw [List.foldl_cons, List.map_cons]
    rw [ih]
    simp

/-- `render_text_common` issues exactly one draw call per `Coord_data` entry,
binding that entry's page texture, following the list order. -/
theorem render_text_common_draws {M C V : Type} (prog max_tu_count : Nat)
    (page_tex : Nat → Nat) (mvp : M) (color : C)
    (coord_data : List Coord_data) (vao vbo : Nat) (s : GLState M C V) :
    (render_text_common prog max_tu_count page_tex mvp color coord_data vao vbo
        s).2 =
      coord_data.map (fun cd => (page_tex cd.page_no, cd.start, cd.num_elements)) := by
  unfold render_text_common
  rw [render_fold_draws]
  simp

/-- C7 (amended): the page-range list of `build_text` lists each used page
exactly once, as SOME permutation of the first-encountered order (the
iteration order of the intermediate `std::unordered_map` is unspecified, so
the list order is a permutation of - not necessarily equal to - the order in
which each page's first code point appears in the decoded input), and
rendering issues exactly one draw call per page range following the list
order. -/
theorem page_ranges_order (P : Font_params) (pm : Page_map)
    (iter : List (Nat × List (Vec2 ℚ)) → List (Nat × List (Vec2 ℚ)))
    (utf8 : List Nat) (hiter : ∀ g, (iter g).Perm g) :
    ((build_text P pm iter utf8).coord_data.map (fun cd => cd.page_no)).Perm
      (first_encountered_pages (utf8_to_utf32 utf8)) ∧
    ((build_text P pm iter utf8).coord_data.map (fun cd => cd.page_no)).Nodup ∧
    (∀ (M C V : Type) (prog max_tu_count : Nat) (page_tex : Nat → Nat)
      (mvp : M) (color : C) (vao vbo : Nat) (s : GLState M C V),
      (render_text_common prog max_tu_count page_tex mvp color
          (build_text P pm iter utf8).coord_data vao vbo s).2 =
        (build_text P pm iter utf8).coord_data.map
          (fun cd => (page_tex cd.page_no, cd.start, cd.num_elements))) := by
  have hkeys : (((utf8_to_utf32 utf8).foldl (build_step P) (build_init pm)).groups).map
      Prod.fst = first_encountered_pages (utf8_to_utf32 utf8) := by
    rw [build_fold_keys]
    rfl
  have hperm : ((build_text P pm iter utf8).coord_data.map (fun cd => cd.page_no)).Perm
      (first_encountered_pages (utf8_to_utf32 utf8)) := by
    rw [build_text_pages, ← hkeys]
    exact (hiter _).map Prod.fst
  refine ⟨hperm, ?_, ?_⟩
  · have hnd : (first_encountered_pages (utf8_to_utf32 utf8)).Nodup :=
      foldl_insert_new_nodup _ [] List.nodup_nil
    exact hperm.nodup_iff.mpr hnd
  · intro M C V prog max_tu_count page_tex mvp color vao vbo s
    exact render_text_common_draws prog max_tu_count page_tex mvp color _ vao vbo s

/-- Witness for `page_ranges_order` with the identity iteration order on a
two-page input. -/
theorem page_ranges_order_witness :
    ((build_text sample_params [] id [0x41, 0xC4, 0x80]).coord_data.map
        (fun cd => cd.page_no)).Perm
      (first_encountered_pages (utf8_to_utf32 [0x41, 0xC4, 0x80])) :=
  (page_ranges_order sample_params [] id [0x41, 0xC4, 0x80]
    (fun g => List.Perm.refl g)).1

/-- C7 counterexample: `List.reverse` is a legitimate iteration order for the
intermediate unordered map (it is a permutation of the entries), yet under it
the two-page input A,Ā produces the page-range list [1, 0] while the
first-encountered order is [0, 1] - so the claim that the list always follows
first-encountered order is false. -/
theorem page_ranges_order_counterexample :
    (∀ g : List (Nat × List (Vec2 ℚ)), (List.reverse g).Perm g) ∧
    first_encountered_pages (utf8_to_utf32 [0x41, 0xC4, 0x80]) = [0, 1] ∧
    (build_text sample_params [] List.reverse [0x41, 0xC4, 0x80]).coord_data.map
      (fun cd => cd.page_no) = [1, 0] := by
  refine ⟨fun g => List.reverse_perm g, by decide, by decide⟩

/-! ### C3: the GL state guard -/

/-- Page builds leave every GL field other than the active-texture unit and
the 2D-texture bindings untouched. -/
theorem build_text_gl_untouched {M C V : Type} (P : Font_params)
    (loads : List Nat) : ∀ s : GLState M C V,
    (build_text_gl P loads s).vertex_array = s.vertex_array ∧
    (build_text_gl P loads s).array_buffer = s.array_buffer ∧
    (build_text_gl P loads s).program = s.program ∧
    (build_text_gl P loads s).blend_src = s.blend_src ∧
    (build_text_gl P loads s).blend_dst = s.blend_dst ∧
    (build_text_gl P loads s).depth_test = s.depth_test ∧
    (build_text_gl P loads s).blend = s.blend ∧
    (build_text_gl P loads s).buffer_store = s.buffer_store := by
  induction loads with
  | nil => intro s; exact ⟨rfl, rfl, rfl, rfl, rfl, rfl, rfl, rfl⟩
  | cons p rest ih =>
    intro s
    simpa [build_text_gl, load_page_gl] using
      ih { s with active_texture := GL_TEXTURE0,
                  texture_2d := Function.update s.texture_2d GL_TEXTURE0
                    (P.mk_page_tex p) }

/-- After at least one page build, the active unit is GL_TEXTURE0 and the
2D texture bound on unit 0 is the last built page's texture. -/
theorem build_text_gl_last {M C V : Type} (P : Font_params) :
    ∀ (loads : List Nat) (p : Nat) (s : GLState M C V),
    loads.getLast? = some p →
    (build_text_gl P loads s).active_texture = GL_TEXTURE0 ∧
    (build_text_gl P loads s).texture_2d GL_TEXTURE0 = P.mk_page_tex p := by
  intro loads
  induction loads with
  | nil => intro p s h; simp at h
  | cons q rest ih =>
    intro p s h
    match rest, h with
    | [], h =>
      have hq : q = p := by simpa using h
      subst hq
      constructor
      · rfl
      · simp [build_text_gl, load_page_gl, Function.update_same]
    | r :: rr, h =>
      have h2 : (r :: rr).getLast? = some p := by
        simpa [List.getLast?_cons_cons] using h
      simpa [build_text_gl, load_page_gl] using
        ih p (load_page_gl (P.mk_page_tex q) s) h2

/-- C3 (amended): `render_text_common` itself - and hence the cached
`Static_text` render variant, which performs no GL traffic before it -
restores every captured ambient binding on every exit path, for any number
of page draws including zero.  The transient `Font_sys` variants do not:
the screen-space transient path runs `load_text_vbo` before the state
capture, so it exits with the GL_ARRAY_BUFFER binding equal to the font's
VBO; and in BOTH transient modes each page lazily built during the call runs
`glActiveTexture(GL_TEXTURE0)`/`glBindTexture` before the capture, so
whenever at least one page is built the call exits with the active-texture
unit set to GL_TEXTURE0 and the 2D binding of unit 0 set to the last built
page's texture.  When no page is built, the transient matrix-mode path
restores every captured binding, and the screen-space path restores all of
them except the array buffer binding. -/
theorem gl_state_guard :
    (∀ (M C V : Type) (prog max_tu_count : Nat) (page_tex : Nat → Nat) (mvp : M)
      (color : C) (coord_data : List Coord_data) (vao vbo : Nat)
      (s : GLState M C V),
      captured_restored s
        (render_text_common prog max_tu_count page_tex mvp color coord_data vao
          vbo s).1) ∧
    (∀ (M C V : Type) (prog max_tu_count : Nat) (page_tex : Nat → Nat) (mvp : M)
      (color : C) (coord_data : List Coord_data) (vao vbo : Nat)
      (s : GLState M C V),
      captured_restored s
        (static_text_render_text prog max_tu_count page_tex mvp color coord_data
          vao vbo s).1) ∧
    (∀ (M C : Type) (P : Font_params) (pm : Page_map)
      (iter : List (Nat × List (Vec2 ℚ)) → List (Nat × List (Vec2 ℚ)))
      (utf8 : List Nat) (prog max_tu_count : Nat) (page_tex : Nat → Nat)
      (mvp : M) (color : C) (vao vbo : Nat) (s : GLState M C (List (Vec2 ℚ))),
      ((font_sys_render_text P pm iter utf8 prog max_tu_count page_tex mvp color
          vao vbo s).1.vertex_array = s.vertex_array ∧
       (font_sys_render_text P pm iter utf8 prog max_tu_count page_tex mvp color
          vao vbo s).1.program = s.program ∧
       (font_sys_render_text P pm iter utf8 prog max_tu_count page_tex mvp color
          vao vbo s).1.blend_src = s.blend_src ∧
       (font_sys_render_text P pm iter utf8 prog max_tu_count page_tex mvp color
          vao vbo s).1.blend_dst = s.blend_dst ∧
       (font_sys_render_text P pm iter utf8 prog max_tu_count page_tex mvp color
          vao vbo s).1.depth_test = s.depth_test ∧
       (font_sys_render_text P pm iter utf8 prog max_tu_count page_tex mvp color
          vao vbo s).1.blend = s.blend) ∧
      (font_sys_render_text P pm iter utf8 prog max_tu_count page_tex mvp color
          vao vbo s).1.array_buffer = vbo ∧
      ((build_text P pm iter utf8).loads = [] →
        (font_sys_render_text P pm iter utf8 prog max_tu_count page_tex mvp
            color vao vbo s).1.active_texture = s.active_texture ∧
        (font_sys_render_text P pm iter utf8 prog max_tu_count page_tex mvp
            color vao vbo s).1.texture_2d s.active_texture =
          s.texture_2d s.active_texture) ∧
      (∀ p, (build_text P pm iter utf8).loads.getLast? = some p →
        (font_sys_render_text P pm iter utf8 prog max_tu_count page_tex mvp
            color vao vbo s).1.active_texture = GL_TEXTURE0 ∧
        (font_sys_render_text P pm iter utf8 prog max_tu_count page_tex mvp
            color vao vbo s).1.texture_2d GL_TEXTURE0 = P.mk_page_tex p)) ∧
    (∀ (M C V : Type) (P : Font_params) (pm : Page_map)
      (iter : List (Nat × List (Vec2 ℚ)) → List (Nat × List (Vec2 ℚ)))
      (utf8 : List Nat) (prog max_tu_count : Nat) (page_tex : Nat → Nat)
      (mvp : M) (color : C) (vao vbo : Nat) (s : GLState M C V),
      ((font_sys_render_text_mat P pm iter utf8 prog max_tu_count page_tex mvp
          color vao vbo s).1.vertex_array = s.vertex_array ∧
       (font_sys_render_text_mat P pm iter utf8 prog max_tu_count page_tex mvp
          color vao vbo s).1.array_buffer = s.array_buffer ∧
       (font_sys_render_text_mat P pm iter utf8 prog max_tu_count page_tex mvp
          color vao vbo s).1.program = s.program ∧
       (font_sys_render_text_mat P pm iter utf8 prog max_tu_count page_tex mvp
          color vao vbo s).1.blend_src = s.blend_src ∧
       (font_sys_render_text_mat P pm iter utf8 prog max_tu_count page_tex mvp
          color vao vbo s).1.blend_dst = s.blend_dst ∧
       (font_sys_render_text_mat P pm iter utf8 prog max_tu_count page_tex mvp
          color vao vbo s).1.depth_test = s.depth_test ∧
       (font_sys_render_text_mat P pm iter utf8 prog max_tu_count page_tex mvp
          color vao vbo s).1.blend = s.blend) ∧
      ((build_text P pm iter utf8).loads = [] →
        (font_sys_render_text_mat P pm iter utf8 prog max_tu_count page_tex mvp
            color vao vbo s).1.active_texture = s.active_texture ∧
        (font_sys_render_text_mat P pm iter utf8 prog max_tu_count page_tex mvp
            color vao vbo s).1.texture_2d s.active_texture =
          s.texture_2d s.active_texture) ∧
      (∀ p, (build_text P pm iter utf8).loads.getLast? = some p →
        (font_sys_render_text_mat P pm iter utf8 prog max_tu_count page_tex mvp
            color vao vbo s).1.active_texture = GL_TEXTURE0 ∧
        (font_sys_render_text_mat P pm iter utf8 prog max_tu_count page_tex mvp
            color vao vbo s).1.texture_2d GL_TEXTURE0 = P.mk_page_tex p)) := by
  refine ⟨?_, ?_, ?_, ?_⟩
  · intro M C V prog max_tu_count page_tex mvp color coord_data vao vbo s
    simp [captured_restored, render_text_common, Function.update_same]
  · intro M C V prog max_tu_count page_tex mvp color coord_data vao vbo s
    simp [captured_restored, static_text_render_text, render_text_common,
      Function.update_same]
  · intro M C P pm iter utf8 prog max_tu_count page_tex mvp color vao vbo s
    obtain ⟨hva, hab, hpr, hbs, hbd, hdt, hbl, hst⟩ :=
      build_text_gl_untouched P (build_text P pm iter utf8).loads s
    refine ⟨⟨?_, ?_, ?_, ?_, ?_, ?_⟩, ?_, ?_, ?_⟩
    · simp [font_sys_render_text, render_text_common, load_text_vbo, hva]
    · simp [font_sys_render_text, render_text_common, load_text_vbo, hpr]
    · simp [font_sys_render_text, render_text_common, load_text_vbo, hbs]
    · simp [font_sys_render_text, render_text_common, load_text_vbo, hbd]
    · simp [font_sys_render_text, render_text_common, load_text_vbo, hdt]
    · simp [font_sys_render_text, render_text_common, load_text_vbo, hbl]
    · simp [font_sys_render_text, render_text_common, load_text_vbo]
    · intro hnil
      have hgl : build_text_gl P (build_text P pm iter utf8).loads s = s := by
        rw [hnil]; rfl
      constructor
      · simp [font_sys_render_text, render_text_common, load_text_vbo, hgl]
      · simp [font_sys_render_text, render_text_common, load_text_vbo, hgl,
          Function.update_same]
    · intro p hp
      obtain ⟨hat, htx⟩ :=
        build_text_gl_last P (build_text P pm iter utf8).loads p s hp
      constructor
      · simp [font_sys_render_text, render_text_common, load_text_vbo, hat]
      · simp [font_sys_render_text, render_text_common, load_text_vbo, hat, htx,
          Function.update_same]
  · intro M C V P pm iter utf8 prog max_tu_count page_tex mvp color vao vbo s
    obtain ⟨hva, hab, hpr, hbs, hbd, hdt, hbl, hst⟩ :=
      build_text_gl_untouched P (build_text P pm iter utf8).loads s
    refine ⟨⟨?_, ?_, ?_, ?_, ?_, ?_, ?_⟩, ?_, ?_⟩
    · simp [font_sys_render_text_mat, render_text_common, hva]
    · simp [font_sys_render_text_mat, render_text_common, hab]
    · simp [font_sys_render_text_mat, render_text_common, hpr]
    · simp [font_sys_render_text_mat, render_text_common, hbs]
    · simp [font_sys_render_text_mat, render_text_common, hbd]
    · simp [font_sys_render_text_mat, render_text_common, hdt]
    · simp [font_sys_render_text_mat, render_text_common, hbl]
    · intro hnil
      have hgl : build_text_gl P (build_text P pm iter utf8).loads s = s := by
        rw [hnil]; rfl
      constructor
      · simp [font_sys_render_text_mat, render_text_common, hgl]
      · simp [font_sys_render_text_mat, render_text_common, hgl,
          Function.update_same]
    · intro p hp
      obtain ⟨hat, htx⟩ :=
        build_text_gl_last P (build_text P pm iter utf8).loads p s hp
      constructor
      · simp [font_sys_render_text_mat, render_text_common, hat]
      · simp [font_sys_render_text_mat, render_text_common, hat, htx,
          Function.update_same]

/-- Witness for `gl_state_guard` at concrete inputs: an empty string (no page
built, the no-load conjuncts apply) and a one-glyph string (page 0 built, the
clobber conjuncts apply). -/
theorem gl_state_guard_witness :
    ((build_text sample_params [] id []).loads = [] ∧
      (font_sys_render_text_mat sample_params [] id [] 11 2 (fun _ => 0) () ()
          3 7 sample_gl_state).1.active_texture =
        sample_gl_state.active_texture) ∧
    ((build_text sample_params [] id [0x41]).loads.getLast? = some 0 ∧
      (font_sys_render_text sample_params [] id [0x41] 11 2 (fun _ => 0) () ()
          3 7 sample_gl_state).1.texture_2d GL_TEXTURE0 =
        sample_params.mk_page_tex 0) :=
  ⟨⟨by decide,
    ((gl_state_guard.2.2.2 Unit Unit (List (Vec2 ℚ)) sample_params [] id [] 11 2
        (fun _ => 0) () () 3 7 sample_gl_state).2.1 (by decide)).1⟩,
   ⟨by decide,
    ((gl_state_guard.2.2.1 Unit Unit sample_params [] id [0x41] 11 2
        (fun _ => 0) () () 3 7 sample_gl_state).2.2.2 0 (by decide)).2⟩⟩

/-- C3 counterexample: two concrete transient render calls violate the claim
that every captured binding is restored.  (i) The screen-space transient path
entered with GL_ARRAY_BUFFER binding 5 and font VBO 7 exits with the binding
7, even for the empty string.  (ii) The matrix-mode transient path entered on
active-texture unit GL_TEXTURE0+3 with texture 9 bound on unit GL_TEXTURE0,
rendering one glyph whose page must be built, exits with the active unit
reset to GL_TEXTURE0 and page texture 100 bound on unit GL_TEXTURE0. -/
theorem gl_state_guard_counterexample :
    (sample_gl_state.array_buffer = 5 ∧
      (font_sys_render_text sample_params [] id [] 11 2 (fun _ => 0) () () 3 7
          sample_gl_state).1.array_buffer = 7) ∧
    (({ sample_gl_state with active_texture := GL_TEXTURE0 + 3 } :
        GLState Unit Unit (List (Vec2 ℚ))).active_texture = GL_TEXTURE0 + 3 ∧
      sample_gl_state.texture_2d GL_TEXTURE0 = 9 ∧
      (font_sys_render_text_mat sample_params [] id [0x41] 11 2 (fun _ => 0)
          () () 3 7
          ({ sample_gl_state with active_texture := GL_TEXTURE0 + 3 } :
            GLState Unit Unit (List (Vec2 ℚ)))).1.active_texture =
        GL_TEXTURE0 ∧
      (font_sys_render_text_mat sample_params [] id [0x41] 11 2 (fun _ => 0)
          () () 3 7
          ({ sample_gl_state with active_texture := GL_TEXTURE0 + 3 } :
            GLState Unit Unit (List (Vec2 ℚ)))).1.texture_2d GL_TEXTURE0 =
        100 ∧
      (GL_TEXTURE0 : Nat) ≠ GL_TEXTURE0 + 3 ∧ (100 : Nat) ≠ 9) := by
  refine ⟨⟨rfl, ?_⟩, ⟨rfl, rfl, ?_, ?_, by decide, by decide⟩⟩
  · decide
  · decide
  · decide

/-! ### C2: the screen-space transform -/

/-- Multiplication of two explicit 4x4 matrices, entrywise. -/
theorem mul_fin_four {β : Type} [AddCommMonoid β] [Mul β]
    (a11 a12 a13 a14 a21 a22 a23 a24 a31 a32 a33 a34 a41 a42 a43 a44
    b11 b12 b13 b14 b21 b22 b23 b24 b31 b32 b33 b34 b41 b42 b43 b44 : β) :
    !![a11, a12, a13, a14;
       a21, a22, a23, a24;
       a31, a32, a33, a34;
       a41, a42, a43, a44] *
      !![b11, b12, b13, b14;
       b21, b22, b23, b24;
       b31, b32, b33, b34;
       b41, b42, b43, b44] =
    !![a11 * b11 + a12 * b21 + a13 * b31 + a14 * b41, a11 * b12 + a12 * b22 + a13 * b32 + a14 * b42, a11 * b13 + a12 * b23 + a13 * b33 + a14 * b43, a11 * b14 + a12 * b24 + a13 * b34 + a14 * b44;
       a21 * b11 + a22 * b21 + a23 * b31 + a24 * b41, a21 * b12 + a22 * b22 + a23 * b32 + a24 * b42, a21 * b13 + a22 * b23 + a23 * b33 + a24 * b43, a21 * b14 + a22 * b24 + a23 * b34 + a24 * b44;
       a31 * b11 + a32 * b21 + a33 * b31 + a34 * b41, a31 * b12 + a32 * b22 + a33 * b32 + a34 * b42, a31 * b13 + a32 * b23 + a33 * b33 + a34 * b43, a31 * b14 + a32 * b24 + a33 * b34 + a34 * b44;
       a41 * b11 + a42 * b21 + a43 * b31 + a44 * b41, a41 * b12 + a42 * b22 + a43 * b32 + a44 * b42, a41 * b13 + a42 * b23 + a43 * b33 + a44 * b43, a41 * b14 + a42 * b24 + a43 * b34 + a44 * b44] := by
  ext i j
  fin_cases i <;> fin_cases j <;>
    simp [Matrix.mul_apply, Fin.sum_univ_succ, add_assoc]


set_option maxHeartbeats 1600000 in
/-- C2: over any field (in particular for every viewport size, anchor,
alignment flags and rotation angle, with `c`/`s` the rotation's cosine and
sine), the single collapsed matrix of the screen-space render path equals
the product orthographic_projection(0,w,h,0) x translate(pos) x
rotate(rotation, z) x translate(-start_offset); consequently, with
horizontal-left + vertical-top alignment (flags 0x5) and rotation 0, the
matrix maps the text box's upper-left corner to the same clip-space point to
which the projection alone maps the anchor `pos` - the box's upper-left
corner lands exactly at the anchor in screen space. -/
theorem screen_space_transform {α : Type} [Field α] (win pos : Vec2 α)
    (c s : α) (align_flags : Nat) (text_box : Bbox α)
    (hw : win.x ≠ 0) (hh : win.y ≠ 0) :
    (orthographic_projection 0 win.x win.y 0 * translate pos * rotate_z c s *
        translate ⟨-(start_offset align_flags text_box).x,
                   -(start_offset align_flags text_box).y⟩ =
      model_view_projection win pos c s (start_offset align_flags text_box)) ∧
    ((model_view_projection win pos 1 0 (start_offset 0x5 text_box)).mulVec
        ![text_box.ul.x, text_box.ul.y, 0, 1] =
      (orthographic_projection 0 win.x win.y 0).mulVec
        ![pos.x, pos.y, 0, 1]) := by
  constructor
  · simp only [orthographic_projection, translate, rotate_z,
      model_view_projection]
    rw [mul_fin_four, mul_fin_four, mul_fin_four]
    ext i j
    fin_cases i <;> fin_cases j <;>
      · simp
        try field_simp [hw, hh]
        try ring
  · have e3 : (5 : Nat) &&& 3 = 1 := rfl
    have eC : (5 : Nat) &&& 12 = 4 := rfl
    funext k
    fin_cases k <;>
      · simp [model_view_projection, orthographic_projection, start_offset,
          e3, eC, Matrix.mulVec, Matrix.dotProduct, Fin.sum_univ_four,
          Matrix.vecHead, Matrix.vecTail]
        try field_simp [hw, hh]
        try ring

/-- Witness for `screen_space_transform` at concrete rational inputs with a
non-trivial rotation (cos 3/5, sin 4/5). -/
theorem screen_space_transform_witness :
    (orthographic_projection (0 : ℚ) 2 4 0 *
        translate ⟨7, 9⟩ * rotate_z (3 / 5) (4 / 5) *
        translate ⟨-(start_offset 0x5 (⟨⟨1, 2⟩, ⟨5, 6⟩⟩ : Bbox ℚ)).x,
                   -(start_offset 0x5 (⟨⟨1, 2⟩, ⟨5, 6⟩⟩ : Bbox ℚ)).y⟩ =
      model_view_projection ⟨2, 4⟩ ⟨7, 9⟩ (3 / 5) (4 / 5)
        (start_offset 0x5 (⟨⟨1, 2⟩, ⟨5, 6⟩⟩ : Bbox ℚ))) ∧
    ((model_view_projection (⟨2, 4⟩ : Vec2 ℚ) ⟨7, 9⟩ 1 0
        (start_offset 0x5 (⟨⟨1, 2⟩, ⟨5, 6⟩⟩ : Bbox ℚ))).mulVec ![1, 2, 0, 1] =
      (orthographic_projection (0 : ℚ) 2 4 0).mulVec ![7, 9, 0, 1]) :=
  ⟨(screen_space_transform (⟨2, 4⟩ : Vec2 ℚ) ⟨7, 9⟩ (3 / 5) (4 / 5) 0x5
      ⟨⟨1, 2⟩, ⟨5, 6⟩⟩ (by norm_num) (by norm_num)).1,
   (screen_space_transform (⟨2, 4⟩ : Vec2 ℚ) ⟨7, 9⟩ (3 / 5) (4 / 5) 0x5
      ⟨⟨1, 2⟩, ⟨5, 6⟩⟩ (by norm_num) (by norm_num)).2⟩

end Textogl
